import Mathlib

/-!
Verification of the NamazBot turn-processing core (src/main.py).

This file shallowly embeds the pure logic of the bot's onboarding state
machine, intent-classification post-processing, routing, and the intent
handlers.  External collaborators (the Aladhan prayer-times API, the LLM,
the JSON parser of the Python standard library, the scheduler and the
wall clock) are passed in as explicit arguments, mirroring how the Python
code consumes their results.  Python exceptions are modelled with
`Option`/`Except`: a `none`/`.error` result of an embedded function marks
an execution on which the Python original raises.
-/

set_option maxRecDepth 4000
set_option maxHeartbeats 1000000

namespace NamazBot

/-! ## Python string primitives -/

/-- Truthiness of an optional string, as Python evaluates
`profile.get(k)`: `None` and `""` are falsy. -/
def otruthy : Option String → Bool
  | none => false
  | some s => !s.isEmpty

/-- Python `a or d` for an optional/possibly-empty string `a` with
default `d`. -/
def pyOrStr (o : Option String) (d : String) : String :=
  match o with
  | some s => if s.isEmpty then d else s
  | none => d

/-- Python `str.lower()` (ASCII case mapping; the strings the source
lowercases are ASCII or caseless Arabic). -/
def pyLower (s : String) : String := String.mk (s.toList.map Char.toLower)

/-- Helper for `pyTitle`: the boolean records whether the previous
character was alphabetic. -/
def pyTitleAux : Bool → List Char → List Char
  | _, [] => []
  | prevAlpha, c :: cs =>
    (if prevAlpha then c.toLower else c.toUpper) :: pyTitleAux c.isAlpha cs

/-- Python `str.title()`: a letter is uppercased when the preceding
character is not a letter, lowercased otherwise. -/
def pyTitle (s : String) : String := String.mk (pyTitleAux false s.toList)

/-- Whitespace as tested by Python `str.strip()` and the regex class
`\s`. -/
def isPySpace (c : Char) : Bool := c.isWhitespace

/-- Python `str.strip()`. -/
def pyStrip (s : String) : String :=
  String.mk (((s.toList.dropWhile isPySpace).reverse.dropWhile isPySpace).reverse)

/-- `listPref n h` holds when `n` is an initial segment of `h`. -/
def listPref : List Char → List Char → Bool
  | [], _ => true
  | _ :: _, [] => false
  | x :: xs, y :: ys => x == y && listPref xs ys

/-- Substring containment on char lists (Python `needle in hay`). -/
def hasSub : List Char → List Char → Bool
  | n, [] => listPref n []
  | n, c :: t => listPref n (c :: t) || hasSub n t

/-- Python `needle in hay` on strings. -/
def strHasSub (needle hay : String) : Bool := hasSub needle.toList hay.toList

/-- Split a char list at the first occurrence of `sep`
(Python `s.split(sep, 1)` when `sep` occurs). -/
def splitFirst (sep : Char) : List Char → Option (List Char × List Char)
  | [] => none
  | c :: t =>
    if c == sep then some ([], t)
    else (splitFirst sep t).map (fun p => (c :: p.1, p.2))

/-- Word character for the regex metacharacter `\b`
(alphanumeric or underscore). -/
def isWordChar (c : Char) : Bool := c.isAlphanum || c == '_'

/-- Word-ness of an optional character; a string boundary counts as
non-word. -/
def optWord : Option Char → Bool
  | none => false
  | some c => isWordChar c

/-- Remove `pat` from the front of `hay`, if it is an initial segment. -/
def stripPref : List Char → List Char → Option (List Char)
  | [], h => some h
  | _ :: _, [] => none
  | x :: xs, y :: ys => if x == y then stripPref xs ys else none

/-- Does `\b pat \b` match at the current position, where `prev` is the
character immediately before the position? -/
def wbMatchAt (prev : Option Char) (pat hay : List Char) : Bool :=
  match stripPref pat hay with
  | none => false
  | some rest =>
    (optWord prev != optWord pat.head?) && (optWord pat.getLast? != optWord rest.head?)

/-- Search `\b pat \b` anywhere in the remaining text. -/
def wbSearch : Option Char → List Char → List Char → Bool
  | prev, pat, [] => wbMatchAt prev pat []
  | prev, pat, c :: t => wbMatchAt prev pat (c :: t) || wbSearch (some c) pat t

/-- `re.search(rf"\b{pat}\b", hay)` as a boolean, for the literal
(escape-free) patterns the source uses. -/
def reWordSearch (pat hay : String) : Bool := wbSearch none pat.toList hay.toList

/-- Numeric value of a digit string. -/
def natOfDigits (ds : List Char) : Nat := ds.foldl (fun n c => n * 10 + (c.toNat - 48)) 0

/-- Decimal digit test (regex `\d`). -/
def isDig (c : Char) : Bool := c.isDigit

/-- Two-digit zero padding (strftime `%H`, `%M`, `%d`, `%m`). -/
def pad2 (n : Nat) : String := if n < 10 then "0" ++ toString n else toString n

/-- Four-digit zero padding (strftime `%Y`). -/
def pad4 (n : Nat) : String :=
  if n < 10 then "000" ++ toString n
  else if n < 100 then "00" ++ toString n
  else if n < 1000 then "0" ++ toString n
  else toString n

/-- Try to match the 1-digit-hour form `\d:\d\d` at the current
position. -/
def hmAt1 (cs : List Char) : Option (List Char × Nat × Nat) :=
  match cs with
  | a :: c :: d :: e :: _ =>
    if isDig a && c == ':' && isDig d && isDig e then
      some ([a, c, d, e], natOfDigits [a], natOfDigits [d, e])
    else none
  | _ => none

/-- Try to match `(\d{1,2}):(\d{2})` at the current position, greedy on
the hour digits, as the regex engine does. -/
def hmAt (cs : List Char) : Option (List Char × Nat × Nat) :=
  match cs with
  | a :: b :: c :: d :: e :: _ =>
    if isDig a && isDig b && c == ':' && isDig d && isDig e then
      some ([a, b, c, d, e], natOfDigits [a, b], natOfDigits [d, e])
    else hmAt1 cs
  | _ => hmAt1 cs

/-- `re.search(r"(\d{1,2}):(\d{2})", ·)`: matched text plus the two
numeric groups. -/
def hmSearch : List Char → Option (List Char × Nat × Nat)
  | [] => none
  | c :: t =>
    match hmAt (c :: t) with
    | some r => some r
    | none => hmSearch t

/-- `clean_time` (src/main.py:135): keep the first `HH:MM`-shaped
fragment of an Aladhan timing string, or the string itself when none
occurs. -/
def clean_time (t : String) : String :=
  match hmSearch t.toList with
  | some (cs, _, _) => String.mk cs
  | none => t

/-! ## Dates and local times

`datetime` values are modelled at minute granularity (the source never
branches on seconds: prayer times and reminders carry `HH:MM` only, and
at that granularity the strict/non-strict comparisons against a
seconds-bearing `now` coincide with the minute-level comparisons used
here). -/

/-- Gregorian leap year. -/
def isLeap (y : Nat) : Bool := y % 4 == 0 && (y % 100 != 0 || y % 400 == 0)

/-- Days in a month. -/
def daysInMonth (y m : Nat) : Nat :=
  if m == 2 then (if isLeap y then 29 else 28)
  else if m == 4 || m == 6 || m == 9 || m == 11 then 30
  else 31

/-- A timezone-local wall-clock instant, at minute granularity. -/
structure LocalDT where
  year : Nat
  month : Nat
  day : Nat
  hour : Nat
  minute : Nat
deriving Repr, DecidableEq

/-- `d + timedelta(days=1)`. -/
def nextDay (d : LocalDT) : LocalDT :=
  if d.day < daysInMonth d.year d.month then { d with day := d.day + 1 }
  else if d.month < 12 then { d with month := d.month + 1, day := 1 }
  else { d with year := d.year + 1, month := 1, day := 1 }

/-- Iterated `nextDay`. -/
def addDaysN : LocalDT → Nat → LocalDT
  | d, 0 => d
  | d, n + 1 => addDaysN (nextDay d) n

/-- `d + timedelta(minutes=n)` (also covers `timedelta(hours=·)`). -/
def addMinutes (d : LocalDT) (n : Nat) : LocalDT :=
  let total := d.hour * 60 + d.minute + n
  let dd := addDaysN d (total / 1440)
  { dd with hour := (total % 1440) / 60, minute := total % 60 }

/-- Minutes past local midnight. -/
def dtMin (d : LocalDT) : Nat := d.hour * 60 + d.minute

/-- Injective key realising the `datetime` order at minute
granularity. -/
def dtKey (d : LocalDT) : Nat :=
  ((d.year * 13 + d.month) * 32 + d.day) * 1440 + dtMin d

/-- `a <= b` on datetimes. -/
def dtLe (a b : LocalDT) : Bool := dtKey a ≤ dtKey b

/-- `strftime("%d-%m-%Y")`. -/
def strftimeDMY (d : LocalDT) : String :=
  pad2 d.day ++ "-" ++ pad2 d.month ++ "-" ++ pad4 d.year

/-- `strftime("%H:%M")`. -/
def strftimeHM (d : LocalDT) : String := pad2 d.hour ++ ":" ++ pad2 d.minute

/-- `datetime.strptime(s, "%Y-%m-%d")` (4-digit year, 1-2 digit month
and day, value ranges validated), returning midnight of that date;
`none` when Python raises `ValueError`. -/
def strptimeYMD (s : String) : Option LocalDT :=
  match s.splitOn "-" with
  | [ys, ms, ds] =>
    if ys.length == 4 && ys.toList.all isDig
        && 1 ≤ ms.length && ms.length ≤ 2 && ms.toList.all isDig
        && 1 ≤ ds.length && ds.length ≤ 2 && ds.toList.all isDig then
      let y := natOfDigits ys.toList
      let m := natOfDigits ms.toList
      let d := natOfDigits ds.toList
      if 1 ≤ m && m ≤ 12 && 1 ≤ d && d ≤ daysInMonth y m then
        some ⟨y, m, d, 0, 0⟩
      else none
    else none
  | _ => none

/-- Python `int(x)` on the fragments the timing parser sees: strip
whitespace, then a non-empty digit string (a leading sign would in any
case be rejected by the `datetime` range check downstream). -/
def decNat? (cs : List Char) : Option Nat :=
  let t := ((cs.dropWhile isPySpace).reverse.dropWhile isPySpace).reverse
  if t.isEmpty then none
  else if t.all isDig then some (natOfDigits t) else none

/-- Parse one cleaned `HH:MM` timing and bound-check it as
`datetime(y, m, d, h, min)` does; models
`h, m = map(int, hhmm.split(":"))` followed by the `datetime`
constructor in `next_prayer.to_dt` (src/main.py:778). `none` marks the
executions on which Python raises (too few/many `:`-parts, a fragment
`int` rejects, or an out-of-range hour/minute). -/
def toDtMin (hhmm : String) : Option Nat :=
  match splitFirst ':' hhmm.toList with
  | none => none
  | some (hs, ms) =>
    if ms.contains ':' then none
    else
      match decNat? hs, decNat? ms with
      | some h, some m => if h < 24 && m < 60 then some (h * 60 + m) else none
      | _, _ => none

/-! ## Email -/

/-- Matcher core for `RE_EMAIL = ^[^@\s]+@[^@\s]+\.[^@\s]+$`
(src/main.py:86): one `@`, no whitespace, non-empty local part, and
after the `@` a dot with non-empty text on both sides. -/
def reEmailCore (cs : List Char) : Bool :=
  match splitFirst '@' cs with
  | none => false
  | some (loc, rest) =>
    !loc.isEmpty && loc.all (fun c => !isPySpace c) &&
    rest.all (fun c => c != '@' && !isPySpace c) &&
    ((rest.drop 1).dropLast.contains '.')

/-- `RE_EMAIL.match(s)` as a boolean (`$` also accepts one trailing
newline, as in Python). -/
def re_email_match (s : String) : Bool :=
  let cs := s.toList
  reEmailCore (if cs.getLast? == some '\n' then cs.dropLast else cs)

/-! ## JSON values

The Python standard library parser `json.loads` is external to the
repository; embedded functions that consume it take a parser
`loads : String → Option JValue` as an argument (`none` = the call
raises). -/

/-- A parsed JSON value (numbers restricted to integers; the
classifier's post-processing never does numeric arithmetic). -/
inductive JValue where
  | jnull
  | jbool (b : Bool)
  | jnum (n : Int)
  | jstr (s : String)
  | jarr (xs : List JValue)
  | jobj (fields : List (String × JValue))
deriving Repr, BEq

/-- Python truthiness of a JSON value. -/
def jtruthy : JValue → Bool
  | .jnull => false
  | .jbool b => b
  | .jnum n => n != 0
  | .jstr s => !s.isEmpty
  | .jarr xs => !xs.isEmpty
  | .jobj f => !f.isEmpty

mutual
/-- Python `repr` of a parsed JSON value (used only through `pyStr`
for non-string values; strings are quoted with single quotes). -/
def pyRepr : JValue → String
  | .jnull => "None"
  | .jbool b => if b then "True" else "False"
  | .jnum n => toString n
  | .jstr s => "\x27" ++ s ++ "\x27"
  | .jarr xs => "[" ++ String.intercalate ", " (pyReprList xs) ++ "]"
  | .jobj f => "\x7b" ++ String.intercalate ", " (pyReprFields f) ++ "\x7d"

/-- `repr` of each list element. -/
def pyReprList : List JValue → List String
  | [] => []
  | v :: vs => pyRepr v :: pyReprList vs

/-- `repr` of each dict entry. -/
def pyReprFields : List (String × JValue) → List String
  | [] => []
  | (k, v) :: f => ("\x27" ++ k ++ "\x27: " ++ pyRepr v) :: pyReprFields f
end

/-- Python `str` of a parsed JSON value. -/
def pyStr : JValue → String
  | .jstr s => s
  | v => pyRepr v

/-- `d.get(k)` on a parsed JSON object (keys are unique after
parsing). -/
def dictGet : List (String × JValue) → String → Option JValue
  | [], _ => none
  | kv :: f, k => if kv.1 == k then some kv.2 else dictGet f k

/-- `d[k] = v` on a parsed JSON object: replace in place, else
append. -/
def dictSet : List (String × JValue) → String → JValue → List (String × JValue)
  | [], k, v => [(k, v)]
  | (k', v') :: f, k, v =>
    if k' == k then (k, v) :: f else (k', v') :: dictSet f k v

/-- String-valued lookup in a string map (used for the alias dicts and
the Aladhan timings dict). -/
def lookupS : List (String × String) → String → Option String
  | [], _ => none
  | kv :: m, k => if kv.1 == k then some kv.2 else lookupS m k

/-! ## Country data and location parsing -/

/-- One entry of the ISO-3166 database exposed by `pycountry`. -/
structure PyCountry where
  cname : String
  commonName : Option String
deriving Repr

/-- Representative subset of the external `pycountry` country database
(a data dependency of the source, not code of this repository); it
contains every country the claims mention plus a common-name entry so
both lookup paths of the source are exercised. -/
def pycountries : List PyCountry := [
  ⟨"Bolivia, Plurinational State of", some "Bolivia"⟩,
  ⟨"Egypt", none⟩,
  ⟨"France", none⟩,
  ⟨"Pakistan", none⟩,
  ⟨"Saudi Arabia", none⟩,
  ⟨"United Arab Emirates", none⟩,
  ⟨"United Kingdom", none⟩,
  ⟨"United States", none⟩]

/-- The literal `aliases` dict of `normalize_country_name`
(src/main.py:144). -/
def nc_aliases : List (String × String) := [
  ("KSA", "Saudi Arabia"), ("UAE", "United Arab Emirates"),
  ("UK", "United Kingdom"), ("USA", "United States"),
  ("US", "United States"), ("PK", "Pakistan"),
  ("Ksa", "Saudi Arabia"), ("Uae", "United Arab Emirates"),
  ("Uk", "United Kingdom"), ("Usa", "United States"), ("Pk", "Pakistan")]

/-- `normalize_country_name` (src/main.py:139): alias dict, then exact
(case-insensitive) name/common-name match, then name-prefix match. -/
def normalize_country_name (name : String) : Option String :=
  if name.isEmpty then none
  else
    let n := pyStrip name
    match lookupS nc_aliases n with
    | some v => some v
    | none =>
      match pycountries.findSome? (fun c =>
          if pyLower n == pyLower c.cname then some c.cname
          else match c.commonName with
            | some cn => if pyLower n == pyLower cn then some cn
              else none
            | none => none) with
      | some v => some v
      | none =>
        pycountries.findSome? (fun c =>
          if (pyLower c.cname).startsWith (pyLower n) then some c.cname
          else none)

/-- `parse_city_country` (src/main.py:166). -/
def parse_city_country (line : String) : Option String × Option String :=
  if !strHasSub "-" line then (none, none)
  else
    match splitFirst '-' line.toList with
    | none => (none, none)
    | some (l, r) =>
      let city_raw := pyStrip (String.mk l)
      let country_raw := pyStrip (String.mk r)
      if city_raw.length < 2 || country_raw.length < 2 then (none, none)
      else
        let city := pyTitle city_raw
        match normalize_country_name country_raw with
        | none => (some city, none)
        | some cn => (some city, some cn)

/-- The literal `alias_map` dict of `find_country_in_text`
(src/main.py:186). -/
def fcit_aliases : List (String × String) := [
  ("ksa", "Saudi Arabia"), ("uae", "United Arab Emirates"),
  ("uk", "United Kingdom"), ("usa", "United States"),
  ("us", "United States"), ("pk", "Pakistan")]

/-- `find_country_in_text` (src/main.py:181): a country is reported only
on an explicit word-boundary match of an alias, a country name, or a
common name in the lowercased text. -/
def find_country_in_text (text : String) : Option String :=
  if text.isEmpty then none
  else
    let t := pyLower text
    match fcit_aliases.findSome? (fun av =>
        if reWordSearch av.1 t then some av.2 else none) with
    | some v => some v
    | none =>
      pycountries.findSome? (fun c =>
        if reWordSearch (pyLower c.cname) t then some c.cname
        else match c.commonName with
          | some cn => if reWordSearch (pyLower cn) t then some cn else none
          | none => none)

/-! ## State model

The Python profile is a string dict with ad hoc keys; each key the
source reads or writes becomes a field.  `Option String` fields model
string-valued keys (`none` = key absent or `None`); `Bool` fields model
the flags the source only ever sets to `True` or pops. -/

/-- The `_staged_loc` sub-dict staged during location confirmation. -/
structure StagedLoc where
  city : Option String
  country : Option String
  tz : Option String
deriving Repr, DecidableEq

/-- The per-user profile dict. -/
structure Profile where
  name : Option String := none
  email : Option String := none
  city : Option String := none
  country : Option String := none
  tz : Option String := none
  lang : Option String := none
  setup_done : Bool := false
  confirm_loc : Bool := false
  onboarding_ack : Bool := false
  awaitField : Option String := none
  staged_loc : Option StagedLoc := none
  override_city : Option String := none
  override_country : Option String := none
  requested_prayer : Option String := none
  requested_date : Option String := none
  reminder_text : Option String := none
  reminder_time : Option String := none
  p_wa_id : Option String := none
deriving Repr, DecidableEq

/-- The LangGraph `BotState` dict (the `context` key only feeds the LLM
prompt and is absorbed into the classification oracle). -/
structure BotState where
  question : String := ""
  intent : String := ""
  profile : Profile := {}
  reply : String := ""
  wa_id : Option String := none
deriving Repr, DecidableEq

/-- `REQUIRED_FIELDS` and `_profile_complete` (src/main.py:462). -/
def profile_complete (p : Profile) : Bool :=
  otruthy p.name && otruthy p.email && otruthy p.city && otruthy p.country

/-- `get_effective_location` (src/main.py:207): a city-only override
switches to address mode; otherwise overrides win over durable
fields. -/
def get_effective_location (state : BotState) : Option String × Option String × Bool :=
  let o_city := state.profile.override_city
  let o_country := state.profile.override_country
  if otruthy o_city && !otruthy o_country then (o_city, none, true)
  else
    ((if otruthy o_city then o_city else state.profile.city),
     (if otruthy o_country then o_country else state.profile.country),
     false)

/-- `clear_overrides` (src/main.py:225): pops only the two location
override keys. -/
def clear_overrides (state : BotState) : BotState :=
  { state with profile :=
      { state.profile with override_city := none, override_country := none } }

/-! ## Language helpers -/

/-- `AR_RE = [؀-ۿ]` and `_has_ar` (src/main.py:350). -/
def hasAr (s : String) : Bool :=
  s.toList.any (fun c => 0x600 ≤ c.toNat && c.toNat ≤ 0x6FF)

/-- `_lang` (src/main.py:352): the profile language, defaulting to
`"en"`, lowercased. -/
def langOf (p : Profile) : String := pyLower (pyOrStr p.lang "en")

/-- `_ensure_output_language` (src/main.py:359).  `translated` is the
outcome of the one `llm.ainvoke` translation call this function can
make: `.error` = the call raises, `.ok c` = it returns content `c`. -/
def ensure_output_language (p : Profile) (translated : Except Unit String)
    (text : String) : String :=
  if langOf p != "ar" then text
  else if text.isEmpty then ""
  else if hasAr text then text
  else
    match translated with
    | .error _ => text
    | .ok c =>
      let out := pyStrip c
      if out.isEmpty then text else out

/-- `_auto_set_lang` (src/main.py:387): unconditionally overwrite the
profile language from the current utterance. -/
def auto_set_lang (p : Profile) (question : String) : Profile :=
  { p with lang := some (if hasAr question then "ar" else "en") }

/-- The graph input state built by `handle_turn` (src/main.py:1329-1332)
before `app_graph.ainvoke` runs: the caller profile passes through
`_auto_set_lang` first. -/
def handle_turn_state (question : String) (profile : Profile)
    (wa_id : Option String) : BotState :=
  { question := question, profile := auto_set_lang profile question,
    wa_id := wa_id }

/-! ## Intent classification -/

/-- `INTENT_LABELS` (src/main.py:68). -/
def INTENT_LABELS : List String := ["islamic_date", "prayer_times",
  "next_prayer", "reminder", "calendar_connect", "calendar_create_event",
  "calendar_view_events", "calendar_find_events", "calendar_delete_event",
  "general"]

/-- `PRAYER_NAMES` (src/main.py:69). -/
def PRAYER_NAMES : List String := ["Fajr", "Dhuhr", "Asr", "Maghrib", "Isha"]

/-- `PRAYER_ORDER` (src/main.py:70). -/
def PRAYER_ORDER : List String := ["Fajr", "Dhuhr", "Asr", "Maghrib", "Isha"]

/-- The prayer-name whitelist `mapping` of `llm_intent_json`
(src/main.py:449). -/
def prayerMapping : List (String × String) := [("fajr", "Fajr"),
  ("zuhr", "Dhuhr"), ("dhuhr", "Dhuhr"), ("asr", "Asr"),
  ("maghrib", "Maghrib"), ("isha", "Isha")]

/-- `text.find(c)`: index of the first occurrence. -/
def pyFind (cs : List Char) (c : Char) : Option Nat := cs.findIdx? (· == c)

/-- `text.rfind(c)`: index of the last occurrence. -/
def pyRFind (cs : List Char) (c : Char) : Option Nat :=
  (cs.reverse.findIdx? (· == c)).map (fun i => cs.length - 1 - i)

/-- The fallback slice of `_safe_json_extract` (src/main.py:248-249):
the text from the first opening brace to the last closing brace, when
both exist in that order. -/
def braceSlice (text : String) : Option String :=
  match pyFind text.toList '\x7b', pyRFind text.toList '\x7d' with
  | some s, some e =>
    if e > s then some (String.mk ((text.toList.drop s).take (e + 1 - s)))
    else none
  | _, _ => none

/-- `_safe_json_extract` (src/main.py:243): parse directly, else reparse
the brace slice, else return the empty dict. -/
def safe_json_extract (loads : String → Option JValue) (text : String) : JValue :=
  match loads text with
  | some v => v
  | none =>
    match braceSlice text with
    | some sub =>
      match loads sub with
      | some v => v
      | none => .jobj []
    | none => .jobj []

/-- The prayer-name whitelisting step of `llm_intent_json`
(src/main.py:447-452): a truthy prayer-name slot is mapped through the
whitelist and replaced by null when it does not land in
`PRAYER_NAMES`. -/
def prayer_slot_step (slots0 : List (String × JValue)) : List (String × JValue) :=
  match dictGet slots0 "prayer_name" with
  | some pv =>
    if jtruthy pv then
      let v1 : JValue :=
        match lookupS prayerMapping (pyLower (pyStrip (pyStr pv))) with
        | some s => .jstr s
        | none => .jnull
      let v2 : JValue :=
        if (match v1 with | .jstr s => PRAYER_NAMES.contains s | _ => false) then v1
        else .jnull
      dictSet slots0 "prayer_name" v2
    else slots0
  | none => slots0

/-- The title-casing step of `llm_intent_json` (src/main.py:453-456)
for one of the keys `city`/`country`: applied only when the slot holds
a string. -/
def title_slot_step (slots : List (String × JValue)) (k : String) :
    List (String × JValue) :=
  match dictGet slots k with
  | some (.jstr s) => dictSet slots k (.jstr (pyTitle (pyStrip s)))
  | _ => slots

/-- The whole slot-normalization pipeline of `llm_intent_json`. -/
def slots_proc (slots0 : List (String × JValue)) : List (String × JValue) :=
  title_slot_step (title_slot_step (prayer_slot_step slots0) "city") "country"

/-- The defensive post-processing of `llm_intent_json`
(src/main.py:442-457) applied to the extracted JSON value: coerce an
out-of-set intent label to `general`, whitelist a truthy prayer-name
slot and title-case string city/country slots.  `.error` marks the
executions on which the Python code raises `AttributeError` (extracted
JSON is not an object, or a truthy non-object `slots` value). -/
def intent_post (data : JValue) :
    Except String (String × List (String × JValue)) :=
  match data with
  | .jobj fields =>
    let intent0 := pyLower (pyStr ((dictGet fields "intent").getD (.jstr "general")))
    let intent := if INTENT_LABELS.contains intent0 then intent0 else "general"
    let slotsV := (dictGet fields "slots").getD (.jobj [])
    let slotsV := if jtruthy slotsV then slotsV else .jobj []
    match slotsV with
    | .jobj slots0 => .ok (intent, slots_proc slots0)
    | _ => .error "AttributeError"
  | _ => .error "AttributeError"

/-- `llm_intent_json` (src/main.py:395): the LLM's raw text response is
stripped, JSON-extracted and defensively post-processed. -/
def llm_intent_json (loads : String → Option JValue) (rawContent : String) :
    Except String (String × List (String × JValue)) :=
  intent_post (safe_json_extract loads (pyStrip rawContent))

/-- The date pre-routing keyword list of `classify`
(src/main.py:629). -/
def date_keywords : List String := ["date", "today", "what day", "hijri",
  "islamic date", "gregorian", "التاريخ", "اليوم", "هجري", "ميلادي",
  "what\x27s the date", "what is the date", "current date", "today date",
  "today\x27s date"]

/-- The `classify` graph node (src/main.py:619): guard for incomplete
profiles, keyword pre-route to `islamic_date`, else run the LLM router
and merge each slot into the transient overrides (absent or falsy slot
⇒ the override is popped; the country override comes only from
`find_country_in_text` on the utterance).  `loads`/`rawContent` feed the
embedded `llm_intent_json`; `none` marks a raising execution. -/
def classify (loads : String → Option JValue) (rawContent : String)
    (state : BotState) : Option BotState :=
  let prof := state.profile
  if otruthy prof.awaitField || !profile_complete prof || prof.onboarding_ack
      || prof.confirm_loc then
    some { state with intent := "general" }
  else
    let q := state.question
    let q_lower := pyLower q
    if date_keywords.any (fun k => strHasSub k q_lower) then
      some { state with intent := "islamic_date" }
    else
      match llm_intent_json loads rawContent with
      | .error _ => none
      | .ok (label, slots) =>
        let prof := { prof with
          override_city := match dictGet slots "city" with
            | some v => if jtruthy v then some (pyStr v) else none
            | none => none,
          override_country := match find_country_in_text q with
            | some ec => some ((normalize_country_name ec).getD ec)
            | none => none,
          requested_prayer := match dictGet slots "prayer_name" with
            | some v => if jtruthy v then some (pyStr v) else none
            | none => none,
          requested_date := match dictGet slots "date" with
            | some v => if jtruthy v then some (pyStr v) else none
            | none => none,
          reminder_text := match dictGet slots "reminder_text" with
            | some v => if jtruthy v then some (pyStr v) else none
            | none => none,
          reminder_time := match dictGet slots "reminder_time" with
            | some v => if jtruthy v then some (pyStr v) else none
            | none => none }
        some { state with profile := prof, intent := label }

/-- `route_after_profile` (src/main.py:1255): the conditional edge after
the onboarding node. -/
def route_after_profile (p : Profile) : String :=
  if otruthy p.awaitField || !profile_complete p || p.confirm_loc then "noop"
  else "classify"

/-! ## Onboarding state machine -/

/-- Affirmative confirmation tokens (src/main.py:482). -/
def yes_tokens : List String := ["yes", "y", "haan", "han", "ji", "ok"]

/-- Negative confirmation tokens (src/main.py:512). -/
def no_tokens : List String := ["no", "n", "na", "nah"]

/-- Python f-string rendering of a possibly-`None` value. -/
def fmtOpt : Option String → String
  | some s => s
  | none => "None"

/-- Reply literal: name prompt. -/
def msg_name : String := "Please enter your Name:"

/-- Reply literal: email prompt. -/
def msg_email : String := "Please enter your Email:"

/-- Reply literal: invalid email. -/
def msg_email_invalid : String :=
  "Please enter a valid email (e.g., name@example.com)."

/-- Reply literal: location prompt. -/
def msg_location : String :=
  "Please enter your location as: City - Country  (e.g., Lahore - Pakistan)"

/-- Reply literal: malformed location line. -/
def msg_loc_format : String :=
  "Use the format: City - Country  (e.g., Lahore - Pakistan)"

/-- Reply literal: location failed API validation. -/
def msg_loc_invalid : String :=
  "I couldn\x27t validate that location. Please re-enter as: City - Country  (e.g., Karachi - Pakistan)"

/-- Reply literal: confirmation re-prompt. -/
def msg_yes_no : String := "Please reply Yes or No to confirm your location."

/-- Reply: ask to confirm a staged location. -/
def msg_confirm (city country tz : String) : String :=
  "Please confirm your location: " ++ city ++ ", " ++ country ++
  " (timezone: " ++ tz ++ ").\nReply **Yes** to confirm or **No** to change."

/-- Reply: setup complete. -/
def msg_setup_done (nm city country : String) : String :=
  "Shukriya, " ++ nm ++ "! Setup complete for " ++ city ++ ", " ++ country ++
  ".\nYou can now ask: \x27Fajr time\x27, \x27Next prayer\x27, or \x27Islamic date\x27.\n" ++
  "You\x27ll also receive daily prayer time digests."

/-- The field-collection step of `ensure_profile` (src/main.py:526-569):
consume the awaited field from the stripped utterance `q`.  `.error`
models the early returns (re-prompts and the location staging, which
never falls through); `.ok` is the fall-through into the
ask-next-missing-field block.  `validate` is the
`validate_location_against_api` probe for this turn. -/
def collect_step (validate : String → String → Bool × Option String)
    (q : String) (profile : Profile) : Except (String × Profile) Profile :=
  if profile.awaitField == some "name" then
    if q.isEmpty || ["ok", "okay"].contains (pyLower q) then
      .error (msg_name, profile)
    else .ok { profile with name := some q, awaitField := none }
  else if profile.awaitField == some "email" then
    if !re_email_match q then .error (msg_email_invalid, profile)
    else .ok { profile with email := some q, awaitField := none }
  else if profile.awaitField == some "location" then
    let (city, country) := parse_city_country q
    if !(otruthy city && otruthy country) then .error (msg_loc_format, profile)
    else
      let c := city.getD ""
      let k := country.getD ""
      let (ok, tz) := validate c k
      if !ok then
        .error (msg_loc_invalid, { profile with awaitField := some "location" })
      else
        .error (msg_confirm c k (fmtOpt tz),
          { profile with
            staged_loc := some ⟨some c, some k, tz⟩,
            confirm_loc := true, awaitField := none })
  else .ok profile

/-- The `ensure_profile` graph node (src/main.py:467): short-circuit for
completed setup, the yes/no/other location-confirmation step, field
collection, then prompt for the first missing field in the order name,
email, location, or mark setup done.  The digest-subscription side
effect is external and swallowed by the source's `try/except`. -/
def ensure_profile (validate : String → String → Bool × Option String)
    (state : BotState) : BotState :=
  let profile := state.profile
  let q := pyStrip state.question
  if profile.setup_done && profile_complete profile then
    { state with profile := profile }
  else if profile.confirm_loc then
    if yes_tokens.contains (pyLower q) then
      let staged := profile.staged_loc.getD ⟨none, none, none⟩
      let profile := { profile with city := staged.city, country := staged.country }
      let profile := if otruthy staged.tz then { profile with tz := staged.tz } else profile
      let profile := { profile with
                       staged_loc := none, confirm_loc := false,
                       awaitField := none, setup_done := true }
      { state with
        reply := msg_setup_done (profile.name.getD "") (fmtOpt profile.city)
          (fmtOpt profile.country),
        profile := profile }
    else if no_tokens.contains (pyLower q) then
      { state with
        reply := msg_location,
        profile := { profile with
                     staged_loc := none, confirm_loc := false,
                     awaitField := some "location" } }
    else
      { state with reply := msg_yes_no, profile := profile }
  else
    match collect_step validate q profile with
    | .error (r, profile) => { state with reply := r, profile := profile }
    | .ok profile =>
      if !otruthy profile.name then
        { state with
          reply := msg_name,
          profile := { profile with awaitField := some "name" } }
      else if !otruthy profile.email then
        { state with
          reply := msg_email,
          profile := { profile with awaitField := some "email" } }
      else if !(otruthy profile.city && otruthy profile.country) then
        { state with
          reply := msg_location,
          profile := { profile with awaitField := some "location" } }
      else if !profile.setup_done then
        { state with
          reply := msg_setup_done (fmtOpt profile.name) (fmtOpt profile.city)
            (fmtOpt profile.country),
          profile := { profile with setup_done := true } }
      else
        { state with profile := profile }

/-- The `noop` sink node (src/main.py:1225): consume the one-shot
acknowledgement flag and drop a stale awaiting marker once the profile
is complete. -/
def noop_h (state : BotState) : BotState :=
  let prof := state.profile
  let prof := if prof.onboarding_ack then { prof with onboarding_ack := false } else prof
  let prof :=
    if profile_complete prof && otruthy prof.awaitField then
      { prof with awaitField := none }
    else prof
  { state with profile := prof }

/-! ## Aladhan API data and location validation -/

/-- The parts of one Aladhan response the core reads:
`data["timings"]`, `data["meta"]["timezone"]`,
`data["date"]["hijri"]["date"]` and `data["date"]["readable"]`
(interface fixed by spec section 6). -/
structure AladhanData where
  timings : List (String × String)
  tzName : Option String
  hijriDate : String := ""
  readable : String := ""
deriving Repr

/-- `validate_location_against_api` (src/main.py:231).  `apiResult` is
the outcome of the one `aladhan` call (`.error` = it raises); the
catch-all turns every raising execution into `(False, None)`. -/
def validate_location_against_api (apiResult : Except Unit AladhanData) :
    Bool × Option String :=
  match apiResult with
  | .error _ => (false, none)
  | .ok data =>
    let t := data.timings
    let tz := data.tzName
    (!t.isEmpty
      && ["Fajr", "Dhuhr", "Asr", "Maghrib", "Isha"].all
          (fun r => (lookupS t r).isSome)
      && otruthy tz, tz)

/-! ## Intent handlers

Each handler takes the results of its external calls as arguments:
`fetch d` is the `aladhan_fetch(city, country, d)` outcome for this
turn's effective location, `nowAt tz` is `datetime.now(ZoneInfo(tz))`,
and `translated` feeds the output-language gate.  A `none` result marks
an execution on which the Python handler raises (missing city, fetch
failure, malformed timing strings). -/

/-- The `place` expression shared by the prayer/date handlers
(`city if (address_mode or not country) else f"{city}, {country}"`). -/
def placeOf (city country : Option String) (address_mode : Bool) : String :=
  if address_mode || !otruthy country then fmtOpt city
  else fmtOpt city ++ ", " ++ fmtOpt country

/-- The uniform tail shared by the `islamic_date`, `prayer_times` and
`next_prayer` handlers (src/main.py): set the reply to the base text
passed through the output-language gate, then `clear_overrides`, then
return the state. -/
def handler_tail (translated : Except Unit String) (state : BotState)
    (base : String) : BotState :=
  clear_overrides
    { state with reply := ensure_output_language state.profile translated base }

/-- The base (English) reply of the `islamic_date` handler
(src/main.py:715-722); `none` marks a raising execution (no city, or
the fetch raises). -/
def islamic_date_base (fetch : Option String → Except Unit AladhanData)
    (state : BotState) : Option String :=
  let (city, country, address_mode) := get_effective_location state
  if !otruthy city then none
  else
    match fetch none with
    | .error _ => none
    | .ok d =>
      some ("Islamic (Hijri) date in " ++ placeOf city country address_mode
        ++ ": " ++ d.hijriDate ++ "\nGregorian: " ++ d.readable)

/-- The `islamic_date` handler (src/main.py:715). -/
def islamic_date_h (fetch : Option String → Except Unit AladhanData)
    (translated : Except Unit String) (state : BotState) : Option BotState :=
  (islamic_date_base fetch state).map (handler_tail translated state)

/-- The base reply of the `prayer_times` handler (src/main.py:728-763):
resolve the requested date (`today` ⇒ no parameter, `tomorrow` ⇒ local
tomorrow in the location's timezone, ISO date ⇒ reformatted,
unparseable ⇒ none), then answer for one requested prayer or list all
five. -/
def prayer_times_base (fetch : Option String → Except Unit AladhanData)
    (nowAt : String → LocalDT) (state : BotState) : Option String :=
  let (city, country, address_mode) := get_effective_location state
  if !otruthy city then none
  else
    let dateReq := state.profile.requested_date
    let dp : Except Unit (Option String) :=
      if otruthy dateReq then
        let s := pyLower (pyStrip (dateReq.getD ""))
        if s == "today" then .ok none
        else if s == "tomorrow" then
          match fetch none with
          | .error _ => .error ()
          | .ok d0 => .ok (some (strftimeDMY (nextDay (nowAt (d0.tzName.getD "UTC")))))
        else
          match strptimeYMD (dateReq.getD "") with
          | some dt => .ok (some (strftimeDMY dt))
          | none => .ok none
      else .ok none
    match dp with
    | .error _ => none
    | .ok date_param =>
      match fetch date_param with
      | .error _ => none
      | .ok d =>
        let t := d.timings.map (fun kv => (kv.1, clean_time kv.2))
        let req := state.profile.requested_prayer
        let place := placeOf city country address_mode
        let reqIn := match req with
          | some r => PRAYER_NAMES.contains r
          | none => false
        if reqIn then
          let r := req.getD ""
          some (r ++ " time in " ++ place ++ ": " ++ (lookupS t r).getD "N/A")
        else
          let lines := PRAYER_ORDER.map (fun k => k ++ ": " ++ (lookupS t k).getD "N/A")
          let when := if date_param == none then "today"
            else pyOrStr state.profile.requested_date "the selected date"
          some ("Prayer times " ++ when ++ " for " ++ place ++ ":\n"
            ++ String.intercalate "\n" lines)

/-- The `prayer_times` handler (src/main.py:728). -/
def prayer_times_h (fetch : Option String → Except Unit AladhanData)
    (nowAt : String → LocalDT) (translated : Except Unit String)
    (state : BotState) : Option BotState :=
  (prayer_times_base fetch nowAt state).map (handler_tail translated state)

/-- The prayer-selection loop of `next_prayer` (src/main.py:783-786):
the first prayer in canonical order whose cleaned, parsed time is
strictly after the current local time, as minutes past midnight;
`.error` marks a raising execution (missing timing key or a timing that
`int`/`datetime` rejects), `.ok none` means every prayer has passed. -/
def findNext (t : List (String × String)) (nowMin : Nat) :
    List String → Except Unit (Option (String × Nat))
  | [] => .ok none
  | p :: ps =>
    match lookupS t p with
    | none => .error ()
    | some v =>
      match toDtMin (clean_time v) with
      | none => .error ()
      | some m => if m > nowMin then .ok (some (p, m)) else findNext t nowMin ps

/-- The base reply of the `next_prayer` handler (src/main.py:769-802):
today's first still-future prayer, else tomorrow's Fajr; the base
reports the remaining time as hours plus minutes.  Prayer instants are
minutes from today's local midnight (tomorrow's Fajr is offset by
1440). -/
def next_prayer_base (fetch : Option String → Except Unit AladhanData)
    (nowAt : String → LocalDT) (state : BotState) : Option String :=
  let (city, country, address_mode) := get_effective_location state
  if !otruthy city then none
  else
    match fetch none with
    | .error _ => none
    | .ok d =>
      let tzname := pyOrStr state.profile.tz (d.tzName.getD "UTC")
      let now := nowAt tzname
      let nowMin := dtMin now
      let mkOut := fun (nm : String) (nxtAbs : Nat) =>
        let rem := nxtAbs - nowMin
        let hours := rem / 60
        let rem_mins := rem % 60
        some ("Next prayer in " ++ placeOf city country address_mode ++ ": "
          ++ nm ++ " at " ++ pad2 (nxtAbs % 1440 / 60) ++ ":" ++ pad2 (nxtAbs % 60)
          ++ " (" ++ toString hours ++ "h " ++ toString rem_mins ++ "m left)")
      match findNext d.timings nowMin PRAYER_ORDER with
      | .error _ => none
      | .ok (some (nm, m)) => mkOut nm m
      | .ok none =>
        match fetch (some (strftimeDMY (nextDay now))) with
        | .error _ => none
        | .ok d2 =>
          match lookupS d2.timings "Fajr" with
          | none => none
          | some v =>
            match toDtMin (clean_time v) with
            | none => none
            | some mf => mkOut "Fajr" (1440 + mf)

/-- The `next_prayer` handler (src/main.py:769). -/
def next_prayer_h (fetch : Option String → Except Unit AladhanData)
    (nowAt : String → LocalDT) (translated : Except Unit String)
    (state : BotState) : Option BotState :=
  (next_prayer_base fetch nowAt state).map (handler_tail translated state)

/-! ## Reminder handler -/

/-- Alternatives of the relative-time regex
`in\s+(\d+)\s*(minute|hour|min|hr|h)`, in the regex engine's
left-to-right order. -/
def relUnits : List String := ["minute", "hour", "min", "hr", "h"]

/-- Match the relative-time pattern at the current position. -/
def relAt (cs : List Char) : Option (Nat × String) :=
  match cs with
  | 'i' :: 'n' :: rest =>
    if (rest.takeWhile isPySpace).isEmpty then none
    else
      let r2 := rest.dropWhile isPySpace
      let ds := r2.takeWhile isDig
      if ds.isEmpty then none
      else
        let r3 := (r2.dropWhile isDig).dropWhile isPySpace
        (relUnits.find? (fun u => listPref u.toList r3)).map
          (fun u => (natOfDigits ds, u))
  | _ => none

/-- `re.search(r"in\s+(\d+)\s*(minute|hour|min|hr|h)", ·)`. -/
def searchRel : List Char → Option (Nat × String)
  | [] => none
  | c :: t =>
    match relAt (c :: t) with
    | some r => some r
    | none => searchRel t

/-- The reminder-slot cleanup every return path of `scheduler_agent`
performs (src/main.py: the paired `prof.pop` calls before each
return). -/
def reminder_pop (p : Profile) : Profile :=
  { p with reminder_text := none, reminder_time := none }

/-- The reply of the `scheduler_agent` reminder handler
(src/main.py:808-944).  `llmExtract` is the `_safe_json_extract`ed
outcome of the fallback LLM extraction call (`.error` = the call
raises, which the source catches); `tzOk` tells whether `ZoneInfo`
accepts a zone name; `enqueueOk` is the outcome of `enqueue_reminder`.
The only uncaught-raise path (`none`) is an absolute time whose
hour/minute the `datetime` constructor rejects. -/
def scheduler_reply (llmExtract : Except Unit JValue) (tzOk : String → Bool)
    (nowAt : String → LocalDT) (enqueueOk : Bool) (state : BotState) :
    Option String :=
  let prof := state.profile
  let lang := langOf prof
  let rtext0 := pyOrStr prof.reminder_text ""
  let rtime0 := pyOrStr prof.reminder_time ""
  let tt : String × String :=
    if rtext0.isEmpty || rtime0.isEmpty then
      match llmExtract with
      | .error _ => (rtext0, rtime0)
      | .ok (.jobj f) =>
        let g := fun (k : String) (cur : String) =>
          if !cur.isEmpty then cur
          else
            match dictGet f k with
            | some v => if jtruthy v then pyStr v else ""
            | none => ""
        (g "text" rtext0, g "time" rtime0)
      | .ok _ => (rtext0, rtime0)
    else (rtext0, rtime0)
  let rtext := tt.1
  let rtime := tt.2
  if rtext.isEmpty then
    some (if lang == "ar" then
        "لم أتمكن من فهم نص التذكير. من فضلك حدد ما تريد أن يتم تذكيرك به ومتى."
      else
        "I couldn\x27t understand the reminder text. Please specify what you want to be reminded about and when.")
  else if rtime.isEmpty then
    some (if lang == "ar" then
        "لم أتمكن من فهم وقت التذكير. من فضلك حدد الوقت (مثل: \x2714:30\x27 أو \x27بعد 30 دقيقة\x27)."
      else
        "I couldn\x27t understand the reminder time. Please specify the time (e.g., \x2714:30\x27 or \x27in 30 minutes\x27).")
  else
    let tzname0 := pyOrStr prof.tz "UTC"
    let tzname := if tzOk tzname0 then tzname0 else "UTC"
    let now := nowAt tzname
    let due : Except Unit (Option LocalDT) :=
      match searchRel (pyLower rtime).toList with
      | some (v, u) =>
        if u == "minute" || u == "min" then .ok (some (addMinutes now v))
        else .ok (some (addMinutes now (v * 60)))
      | none =>
        match hmSearch rtime.toList with
        | some (_, h, m) =>
          if h ≥ 24 || m ≥ 60 then .error ()
          else
            let d0 := { now with hour := h, minute := m }
            .ok (some (if dtLe d0 now then nextDay d0 else d0))
        | none => .ok none
    match due with
    | .error _ => none
    | .ok none =>
      some (if lang == "ar" then
          "لم أتمكن من فهم وقت التذكير. استخدم التنسيق: \x27HH:MM\x27 (مثل: \x2714:30\x27) أو \x27بعد X دقيقة/ساعة\x27."
        else
          "I couldn\x27t parse the reminder time. Use format: \x27HH:MM\x27 (e.g., \x2714:30\x27) or \x27in X minutes/hours\x27.")
    | .ok (some dueT) =>
      let wa0 := pyOrStr state.wa_id ""
      let wa := if wa0.isEmpty then pyOrStr prof.p_wa_id "" else wa0
      if !wa.isEmpty then
        if enqueueOk then
          some (if lang == "ar" then
              "تم تحديد التذكير: \x27" ++ rtext ++ "\x27 في الساعة " ++ strftimeHM dueT
            else
              "Reminder set: \x27" ++ rtext ++ "\x27 at " ++ strftimeHM dueT)
        else
          some (if lang == "ar" then "حدث خطأ في تحديد التذكير. يرجى المحاولة مرة أخرى."
            else "Failed to set reminder. Please try again.")
      else
        some (if lang == "ar" then "لا يمكن تحديد التذكير بدون معرف المستخدم."
          else "Cannot set reminder without user ID.")

/-- The `scheduler_agent` reminder handler (src/main.py:808): every
return path pairs its reply with the reminder-slot cleanup. -/
def scheduler_agent_h (llmExtract : Except Unit JValue) (tzOk : String → Bool)
    (nowAt : String → LocalDT) (enqueueOk : Bool) (state : BotState) :
    Option BotState :=
  (scheduler_reply llmExtract tzOk nowAt enqueueOk state).map (fun r =>
    { state with reply := r, profile := reminder_pop state.profile })

/-! ## General fallback handler -/

/-- The fixed Arabic capabilities reply of `general` (src/main.py:1201). -/
def general_ar : String :=
  "أعتذر، أنا متخصص في:\n" ++
  "• أوقات الصلاة (الفجر، الظهر، العصر، المغرب، العشاء)\n" ++
  "• التاريخ الهجري والميلادي\n" ++
  "• الصلاة القادمة\n" ++
  "• التذكيرات والتنبيهات\n" ++
  "• إدارة التقويم (ربط، إنشاء، عرض، حذف الأحداث)\n\n" ++
  "من فضلك اسألني عن إحدى هذه الخدمات."

/-- The fixed English capabilities reply of `general`
(src/main.py:1211). -/
def general_en : String :=
  "I\x27m a specialized assistant for Islamic prayer services.\n\n" ++
  "I can help you with:\n" ++
  "• Prayer times (Fajr, Dhuhr, Asr, Maghrib, Isha)\n" ++
  "• Islamic (Hijri) and Gregorian dates\n" ++
  "• Next prayer time\n" ++
  "• Setting reminders\n" ++
  "• Calendar management (connect, create, view, delete events)\n\n" ++
  "Please ask me about one of these services."

/-- The `general` fallback handler (src/main.py:1193): a fixed
language-branched message, produced without the LLM and without the
output-language gate. -/
def general_h (state : BotState) : BotState :=
  { state with
    reply := if langOf state.profile == "ar" then general_ar else general_en }

/-! ## Spec-side definitions and concrete fixtures -/

/-- The six slot keys of the classification result. -/
def slot_keys : List String := ["prayer_name", "date", "city", "country",
  "reminder_text", "reminder_time"]

/-- Claim-side predicate: every slot of a classification result is
absent or JSON null. -/
def allSlotsNull (slots : List (String × JValue)) : Bool :=
  slot_keys.all (fun k =>
    match dictGet slots k with
    | none => true
    | some .jnull => true
    | some _ => false)

/-- A complete profile used by the concrete test states. -/
def fixProfile : Profile := { name := some "Ali", email := some "a@b.com",
                              city := some "Lahore", country := some "Pakistan",
                              tz := some "Asia/Karachi", lang := some "en" }

/-- Aladhan response fixture: the timings of claim C5. -/
def fixToday : AladhanData :=
  { timings := [("Fajr", "05:00"), ("Dhuhr", "12:00"), ("Asr", "15:30"),
                ("Maghrib", "18:00"), ("Isha", "19:30")],
    tzName := some "Asia/Karachi" }

/-- Aladhan response fixture: tomorrow, Fajr at 05:00. -/
def fixTomorrow : AladhanData :=
  { timings := [("Fajr", "05:00")], tzName := some "Asia/Karachi" }

/-- Fetch oracle for the C5 scenario: today's timings without a date
parameter, tomorrow's for the local next day (2024-01-02). -/
def fixFetch : Option String → Except Unit AladhanData := fun d =>
  match d with
  | none => .ok fixToday
  | some s => if s == "02-01-2024" then .ok fixTomorrow else .error ()

/-- Clock oracle: the local time is 20:00 on 2024-01-01. -/
def fixNow : String → LocalDT := fun _ => ⟨2024, 1, 1, 20, 0⟩

/-- A parser oracle representing `json.loads` on the single LLM reply
`{"intent": "weather", "slots": {"city": "lahore"}}` (out-of-set label
with a populated city slot). -/
def weatherLoads : String → Option JValue := fun s =>
  if s == "W" then
    some (.jobj [("intent", .jstr "weather"),
                 ("slots", .jobj [("city", .jstr "lahore")])])
  else none

/-- A parser oracle that fails on every input (text not parseable as
JSON, directly or via the brace-slice fallback). -/
def failLoads : String → Option JValue := fun _ => none

/-- A parser oracle representing `json.loads` on an LLM reply whose
country slot claims France. -/
def franceLoads : String → Option JValue := fun s =>
  if s == "K" then
    some (.jobj [("intent", .jstr "prayer_times"),
      ("slots", .jobj [("country", .jstr "France")])])
  else none

/-- A location-validation oracle that rejects everything (it is never
consulted on the paths the fixtures exercise). -/
def noValidate : String → String → Bool × Option String := fun _ _ => (false, none)

/-- Turn fixture: the user answers `" YES "` while a validated location
is staged for confirmation. -/
def fixConfirmState : BotState :=
  { question := " YES ",
    profile := { name := some "Ali", email := some "a@b.com",
                 confirm_loc := true,
                 staged_loc := some ⟨some "Lahore", some "Pakistan",
                   some "Asia/Karachi"⟩ } }

/-- Turn fixture: the profile still lacks the email (a required field)
and awaits it; the user supplies a valid one. -/
def fixAwaitEmailState : BotState :=
  { question := "a@b.com",
    profile := { name := some "Ali", city := some "Lahore",
                 country := some "Pakistan", awaitField := some "email" } }

/-- Turn fixture: a complete profile with a city override staged by a
prior turn, hit by a date-keyword question. -/
def fixPrerouteState : BotState :=
  { question := "what date today",
    profile := { fixProfile with override_city := some "London" } }

/-- Turn fixture for the next-prayer scenario of C5. -/
def fixC5State : BotState :=
  { question := "next prayer", profile := fixProfile }

/-- Turn fixture: overrides and a requested prayer staged before a
handler runs. -/
def fixC3State : BotState :=
  { question := "d",
    profile := { fixProfile with
                 override_city := some "Paris",
                 override_country := some "France",
                 requested_prayer := some "Fajr" } }

/-- Turn fixture: a stale country override together with a
country-free date question. -/
def fixC9State : BotState :=
  { question := "what is the date today",
    profile := { fixProfile with override_country := some "France" } }

/-! ## Helper lemmas -/

/-- A falsy awaiting marker is never equal to a concrete non-empty
state name. -/
theorem otruthy_false_beq (o : Option String) (s : String) (hs : s ≠ "")
    (h : otruthy o = false) : (o == some s) = false := by
  cases o with
  | none => rfl
  | some a =>
    have ha : a = "" := (String.isEmpty_iff a).mp (by simpa [otruthy] using h)
    subst ha
    rw [beq_eq_false_iff_ne]
    intro he
    injection he with he'
    exact hs he'.symm

/-- A successful first-occurrence split certifies substring
containment of the separator. -/
theorem splitFirst_hasSub {sep : Char} :
    ∀ {cs l r : List Char}, splitFirst sep cs = some (l, r) →
      hasSub [sep] cs = true := by
  intro cs
  induction cs with
  | nil => intro l r h; simp [splitFirst] at h
  | cons c t ih =>
    intro l r h
    by_cases hc : (c == sep) = true
    · have hcs : c = sep := eq_of_beq hc
      subst hcs
      unfold hasSub
      simp [listPref]
    · have hc' : (c == sep) = false := by simpa using hc
      unfold splitFirst at h
      rw [hc', if_neg (by simp)] at h
      cases hp : splitFirst sep t with
      | none => rw [hp] at h; exact absurd h (by simp)
      | some p =>
        obtain ⟨p1, p2⟩ := p
        unfold hasSub
        rw [ih hp]
        simp

/-- `findSome?` succeeds exactly when some element succeeds. -/
theorem findSome?_isSome {α β : Type} (f : α → Option β) :
    ∀ (l : List α), (l.findSome? f).isSome = l.any (fun x => (f x).isSome) := by
  intro l
  induction l with
  | nil => rfl
  | cons x t ih =>
    cases hx : f x with
    | none => simp [List.findSome?_cons, hx, ih]
    | some b => simp [List.findSome?_cons, hx]

/-- Reading back the key just written to a parsed-JSON dict. -/
theorem dictGet_dictSet_self (l : List (String × JValue)) (k : String) (v : JValue) :
    dictGet (dictSet l k v) k = some v := by
  induction l with
  | nil => simp [dictSet, dictGet]
  | cons kv t ih =>
    by_cases hk : (kv.1 == k) = true
    · simp [dictSet, hk, dictGet]
    · have hk' : (kv.1 == k) = false := by simpa using hk
      simp [dictSet, hk', dictGet, ih]

/-- Writing one key of a parsed-JSON dict leaves the others
unchanged. -/
theorem dictGet_dictSet_ne (l : List (String × JValue)) (k k' : String) (v : JValue)
    (h : (k' == k) = false) : dictGet (dictSet l k v) k' = dictGet l k' := by
  have hkk : (k == k') = false := by
    rw [beq_eq_false_iff_ne] at h ⊢
    exact fun he => h he.symm
  induction l with
  | nil => simp [dictSet, dictGet, hkk]
  | cons kv t ih =>
    by_cases hk : (kv.1 == k) = true
    · have e1 : kv.1 = k := eq_of_beq hk
      have h2 : (kv.1 == k') = false := by rw [e1]; exact hkk
      simp [dictSet, hk, dictGet, h2, hkk]
    · have hk' : (kv.1 == k) = false := by simpa using hk
      simp only [dictSet, hk', if_neg (by simp [hk'] : ¬ (kv.1 == k) = true)]
      simp only [dictGet]
      by_cases h2 : (kv.1 == k') = true
      · simp [h2]
      · have h2' : (kv.1 == k') = false := by simpa using h2
        simp [h2', ih]

/-- The output-language gate is the identity when the translation call
raises. -/
theorem gate_error_id (p : Profile) (t : String) :
    ensure_output_language p (.error ()) t = t := by
  unfold ensure_output_language
  split
  · rfl
  · split
    · next h => exact ((String.isEmpty_iff t).mp h).symm
    · split
      · rfl
      · rfl

/-- The output-language gate is the identity when the translation call
returns empty content. -/
theorem gate_ok_empty_id (p : Profile) (t : String) :
    ensure_output_language p (.ok "") t = t := by
  unfold ensure_output_language
  split
  · rfl
  · split
    · next h => exact ((String.isEmpty_iff t).mp h).symm
    · split
      · rfl
      · rfl

/-! ## Claim C6 -/

/-- C6: `parse_city_country` returns `(none, none)` for every input
without a `-` separator and for every input where either side, after
trimming, is shorter than 2 characters; it returns `(city, none)` when
the city side is acceptable but the country side cannot be normalized;
and `parse_city_country "Lahore - Pakistan" = (Lahore, Pakistan)`. -/
theorem c6_parse_city_country :
    (∀ s : String, strHasSub "-" s = false → parse_city_country s = (none, none))
    ∧ (∀ (s : String) (l r : List Char), splitFirst '-' s.toList = some (l, r) →
        ((pyStrip (String.mk l)).length < 2 ∨ (pyStrip (String.mk r)).length < 2) →
        parse_city_country s = (none, none))
    ∧ (∀ (s : String) (l r : List Char), splitFirst '-' s.toList = some (l, r) →
        2 ≤ (pyStrip (String.mk l)).length → 2 ≤ (pyStrip (String.mk r)).length →
        normalize_country_name (pyStrip (String.mk r)) = none →
        parse_city_country s = (some (pyTitle (pyStrip (String.mk l))), none))
    ∧ parse_city_country "Lahore - Pakistan" = (some "Lahore", some "Pakistan") := by
  refine ⟨?_, ?_, ?_, by decide⟩
  · intro s h
    simp [parse_city_country, h]
  · intro s l r hsplit hlen
    have hsub : strHasSub "-" s = true := by
      simpa [strHasSub] using splitFirst_hasSub hsplit
    have hsplit' : splitFirst '-' s.data = some (l, r) := hsplit
    rcases hlen with hl | hl <;>
      simp [parse_city_country, hsub, hsplit', hl]
  · intro s l r hsplit hl hr hnorm
    have hsub : strHasSub "-" s = true := by
      simpa [strHasSub] using splitFirst_hasSub hsplit
    have hsplit' : splitFirst '-' s.data = some (l, r) := hsplit
    have hl' : ¬ (pyStrip (String.mk l)).length < 2 := by omega
    have hr' : ¬ (pyStrip (String.mk r)).length < 2 := by omega
    simp [parse_city_country, hsub, hsplit', hl', hr', hnorm]

/-- Witness for C6 at concrete inputs: `"Lahore"` has no separator and
`"L - Z"` has two short sides; both map to `(none, none)`. -/
theorem c6_witness :
    parse_city_country "Lahore" = (none, none)
    ∧ parse_city_country "L - Z" = (none, none) := by
  constructor
  · exact c6_parse_city_country.1 "Lahore" (by decide)
  · exact c6_parse_city_country.2.1 "L - Z" ['L', ' '] [' ', 'Z'] (by decide)
      (by decide)

/-! ## Claim C7 -/

/-- C7: `validate_location_against_api` reports `ok = true` exactly when
the response carries all five prayer-time fields and a truthy timezone;
every raising execution of the underlying call yields `(false, none)`
and the exception is not propagated. -/
theorem c7_validate :
    (∀ d : AladhanData,
      (validate_location_against_api (.ok d)).1 = true ↔
        ((lookupS d.timings "Fajr").isSome = true
         ∧ (lookupS d.timings "Dhuhr").isSome = true
         ∧ (lookupS d.timings "Asr").isSome = true
         ∧ (lookupS d.timings "Maghrib").isSome = true
         ∧ (lookupS d.timings "Isha").isSome = true
         ∧ otruthy d.tzName = true))
    ∧ validate_location_against_api (Except.error ()) = (false, none) := by
  refine ⟨?_, rfl⟩
  intro d
  unfold validate_location_against_api
  cases ht : d.timings with
  | nil => simp [ht, lookupS]
  | cons kv t' => simp [ht, List.isEmpty, and_assoc]

/-- Witness for C7: a complete response validates. -/
theorem c7_witness :
    (validate_location_against_api (.ok fixToday)).1 = true := by
  exact (c7_validate.1 fixToday).mpr (by decide)

/-- The title-casing slot step never touches a different key. -/
theorem dictGet_title_slot_step (l : List (String × JValue)) (k k' : String)
    (h : (k' == k) = false) : dictGet (title_slot_step l k) k' = dictGet l k' := by
  unfold title_slot_step
  cases hc : dictGet l k with
  | none => rfl
  | some w =>
    cases w with
    | jstr s => exact dictGet_dictSet_ne l k k' _ h
    | jnull => rfl
    | jbool b => rfl
    | jnum n => rfl
    | jarr xs => rfl
    | jobj f => rfl

/-- A truthy prayer-name slot missing from the whitelist is overwritten
with null. -/
theorem prayer_slot_step_null (slots0 : List (String × JValue)) (pv : JValue)
    (hpn : dictGet slots0 "prayer_name" = some pv) (htruthy : jtruthy pv = true)
    (hmap : lookupS prayerMapping (pyLower (pyStrip (pyStr pv))) = none) :
    prayer_slot_step slots0 = dictSet slots0 "prayer_name" .jnull := by
  unfold prayer_slot_step
  rw [hpn]
  simp [htruthy, hmap]

/-! ## Claim C2 -/

/-- Counterexample to C2 as stated: on the parseable LLM reply
`{"intent": "weather", "slots": {"city": "lahore"}}` the out-of-set
label is coerced to `general`, but the slots are NOT all null — the
city slot survives (title-cased), contradicting "the result has intent
general and all slots null". -/
theorem c2_counterexample :
    llm_intent_json weatherLoads "W"
      = .ok ("general", [("city", JValue.jstr "Lahore")])
    ∧ allSlotsNull [("city", JValue.jstr "Lahore")] = false := by
  exact ⟨rfl, rfl⟩

/-- C2 amended: (i) when both parse attempts fail, the result is intent
`general` with the empty (all-null) slot map; (ii) when extraction
yields an object whose lowercased label is out of the ten-label set
(and whose slots value is absent, falsy, or an object), the intent is
coerced to `general` but the slots are still processed, not nulled;
(iii) a truthy prayer-name slot that does not normalize to one of the
five canonical prayer names is replaced by null; (iv) a truthy
non-object slots value makes the classifier raise `AttributeError`, and
(v) so does extracted JSON that is not an object — so the classifier is
not raise-free over all parseable texts. -/
theorem c2_classifier :
    (∀ (loads : String → Option JValue) (raw : String),
      loads (pyStrip raw) = none →
      (∀ sub, braceSlice (pyStrip raw) = some sub → loads sub = none) →
      llm_intent_json loads raw = .ok ("general", [])
        ∧ allSlotsNull [] = true)
    ∧ (∀ (loads : String → Option JValue) (raw : String)
        (fields : List (String × JValue)),
        safe_json_extract loads (pyStrip raw) = .jobj fields →
        INTENT_LABELS.contains
          (pyLower (pyStr ((dictGet fields "intent").getD (.jstr "general")))) = false →
        (match dictGet fields "slots" with
         | none => True
         | some v => jtruthy v = false ∨ ∃ f, v = .jobj f) →
        ∃ slots, llm_intent_json loads raw = .ok ("general", slots))
    ∧ (∀ (loads : String → Option JValue) (raw : String)
        (fields slots0 : List (String × JValue)) (pv : JValue),
        safe_json_extract loads (pyStrip raw) = .jobj fields →
        dictGet fields "slots" = some (.jobj slots0) →
        dictGet slots0 "prayer_name" = some pv → jtruthy pv = true →
        lookupS prayerMapping (pyLower (pyStrip (pyStr pv))) = none →
        ∃ label slots', llm_intent_json loads raw = .ok (label, slots')
          ∧ dictGet slots' "prayer_name" = some .jnull)
    ∧ (∀ (loads : String → Option JValue) (raw : String)
        (fields : List (String × JValue)) (v : JValue),
        safe_json_extract loads (pyStrip raw) = .jobj fields →
        dictGet fields "slots" = some v → jtruthy v = true →
        (∀ f, v ≠ .jobj f) →
        llm_intent_json loads raw = .error "AttributeError")
    ∧ (∀ (loads : String → Option JValue) (raw : String),
        (∀ fields, safe_json_extract loads (pyStrip raw) ≠ .jobj fields) →
        llm_intent_json loads raw = .error "AttributeError") := by
  refine ⟨?_, ?_, ?_, ?_, ?_⟩
  · intro loads raw h1 h2
    have hxe : safe_json_extract loads (pyStrip raw) = .jobj [] := by
      unfold safe_json_extract
      rw [h1]
      cases hb : braceSlice (pyStrip raw) with
      | none => rfl
      | some sub => simp [h2 sub hb]
    refine ⟨?_, rfl⟩
    unfold llm_intent_json
    rw [hxe]
    rfl
  · intro loads raw fields hdata hlabel hslots
    have hstep : llm_intent_json loads raw = intent_post (.jobj fields) := by
      unfold llm_intent_json; rw [hdata]
    have hlabel' :
        pyLower (pyStr ((dictGet fields "intent").getD (.jstr "general")))
          ∉ INTENT_LABELS := by
      simpa using hlabel
    cases hs : dictGet fields "slots" with
    | none =>
      refine ⟨slots_proc [], ?_⟩
      rw [hstep]
      simp [intent_post, hs, hlabel']
    | some v =>
      rw [hs] at hslots
      rcases hslots with hfalsy | ⟨f, rfl⟩
      · refine ⟨slots_proc [], ?_⟩
        rw [hstep]
        simp [intent_post, hs, hfalsy, hlabel']
      · cases hft : jtruthy (JValue.jobj f) with
        | false =>
          refine ⟨slots_proc [], ?_⟩
          rw [hstep]
          simp [intent_post, hs, hft, hlabel']
        | true =>
          refine ⟨slots_proc f, ?_⟩
          rw [hstep]
          simp [intent_post, hs, hft, hlabel']
  · intro loads raw fields slots0 pv hdata hslots hpn htruthy hmap
    have hne : slots0 ≠ [] := by
      intro h0
      rw [h0] at hpn
      simp [dictGet] at hpn
    have htr : jtruthy (JValue.jobj slots0) = true := by
      cases slots0 with
      | nil => exact absurd rfl hne
      | cons a t => rfl
    have hstep : llm_intent_json loads raw = intent_post (.jobj fields) := by
      unfold llm_intent_json; rw [hdata]
    refine ⟨if INTENT_LABELS.contains
          (pyLower (pyStr ((dictGet fields "intent").getD (.jstr "general")))) then
          pyLower (pyStr ((dictGet fields "intent").getD (.jstr "general")))
        else "general", slots_proc slots0, ?_, ?_⟩
    · rw [hstep]
      simp [intent_post, hslots, htr]
    · unfold slots_proc
      rw [dictGet_title_slot_step _ _ _ (by decide),
        dictGet_title_slot_step _ _ _ (by decide),
        prayer_slot_step_null slots0 pv hpn htruthy hmap]
      exact dictGet_dictSet_self slots0 "prayer_name" .jnull
  · intro loads raw fields v hdata hslots htruthy hnotobj
    have hstep : llm_intent_json loads raw = intent_post (.jobj fields) := by
      unfold llm_intent_json; rw [hdata]
    rw [hstep]
    cases v with
    | jobj f => exact absurd rfl (hnotobj f)
    | jnull => simp [jtruthy] at htruthy
    | jbool b => simp [intent_post, hslots, htruthy]
    | jnum n => simp [intent_post, hslots, htruthy]
    | jstr s => simp [intent_post, hslots, htruthy]
    | jarr xs => simp [intent_post, hslots, htruthy]
  · intro loads raw hnd
    unfold llm_intent_json
    cases hd : safe_json_extract loads (pyStrip raw) with
    | jobj fields => exact absurd hd (hnd fields)
    | jnull => rfl
    | jbool b => rfl
    | jnum n => rfl
    | jstr s => rfl
    | jarr xs => rfl

/-- Witness for C2: with a parser failing on every string, the raw text
`"not json"` yields intent `general` and the empty, all-null slot
map. -/
theorem c2_witness :
    llm_intent_json failLoads "not json" = .ok ("general", [])
    ∧ allSlotsNull [] = true := by
  exact c2_classifier.1 failLoads "not json" rfl (fun sub h => rfl)

/-! ## Claim C4 -/

/-- C4: in the confirmation state, an affirmative reply commits the
staged city, country and timezone into the durable fields, removes the
staged/confirmation flags and marks setup complete; a negative reply
discards the staged location and returns to awaiting location; any other
reply re-prompts yes-or-no with the profile (staged data included)
unchanged; and once setup is done on a complete profile, the onboarding
node returns the state untouched. -/
theorem c4_confirmation :
    (∀ (validate : String → String → Bool × Option String) (st : BotState)
        (c k tzv : String),
      st.profile.setup_done = false →
      st.profile.confirm_loc = true →
      yes_tokens.contains (pyLower (pyStrip st.question)) = true →
      st.profile.staged_loc = some ⟨some c, some k, some tzv⟩ →
      tzv ≠ "" →
      ((ensure_profile validate st).profile.city = some c
        ∧ (ensure_profile validate st).profile.country = some k
        ∧ (ensure_profile validate st).profile.tz = some tzv
        ∧ (ensure_profile validate st).profile.staged_loc = none
        ∧ (ensure_profile validate st).profile.confirm_loc = false
        ∧ (ensure_profile validate st).profile.awaitField = none
        ∧ (ensure_profile validate st).profile.setup_done = true))
    ∧ (∀ (validate : String → String → Bool × Option String) (st : BotState),
      st.profile.setup_done = false →
      st.profile.confirm_loc = true →
      no_tokens.contains (pyLower (pyStrip st.question)) = true →
      ((ensure_profile validate st).profile.staged_loc = none
        ∧ (ensure_profile validate st).profile.confirm_loc = false
        ∧ (ensure_profile validate st).profile.awaitField = some "location"
        ∧ (ensure_profile validate st).reply = msg_location))
    ∧ (∀ (validate : String → String → Bool × Option String) (st : BotState),
      st.profile.setup_done = false →
      st.profile.confirm_loc = true →
      yes_tokens.contains (pyLower (pyStrip st.question)) = false →
      no_tokens.contains (pyLower (pyStrip st.question)) = false →
      ((ensure_profile validate st).profile = st.profile
        ∧ (ensure_profile validate st).reply = msg_yes_no))
    ∧ (∀ (validate : String → String → Bool × Option String) (st : BotState),
      st.profile.setup_done = true → profile_complete st.profile = true →
      ensure_profile validate st = st) := by
  refine ⟨?_, ?_, ?_, ?_⟩
  · intro validate st c k tzv hsd hcf hyes hstag htzv
    have htze : tzv.isEmpty = false := by
      cases h : tzv.isEmpty with
      | true => exact absurd ((String.isEmpty_iff tzv).mp h) htzv
      | false => rfl
    have hyes' : pyLower (pyStrip st.question) ∈ yes_tokens := by
      simpa using hyes
    simp [ensure_profile, hsd, hcf, hyes', hstag, otruthy, htze]
  · intro validate st hsd hcf hno
    have hql : pyLower (pyStrip st.question) = "no"
        ∨ pyLower (pyStrip st.question) = "n"
        ∨ pyLower (pyStrip st.question) = "na"
        ∨ pyLower (pyStrip st.question) = "nah" := by
      simpa [no_tokens] using hno
    have hyes' : pyLower (pyStrip st.question) ∉ yes_tokens := by
      rcases hql with h | h | h | h <;> rw [h] <;> decide
    have hno' : pyLower (pyStrip st.question) ∈ no_tokens := by
      simpa using hno
    simp [ensure_profile, hsd, hcf, hyes', hno']
  · intro validate st hsd hcf hyes hno
    have hyes' : pyLower (pyStrip st.question) ∉ yes_tokens := by
      simpa using hyes
    have hno' : pyLower (pyStrip st.question) ∉ no_tokens := by
      simpa using hno
    simp [ensure_profile, hsd, hcf, hyes', hno']
  · intro validate st hsd hcomp
    simp [ensure_profile, hsd, hcomp]

/-- Witness for C4: the concrete confirmation turn `" YES "` with
staged Lahore/Pakistan commits the location and completes setup. -/
theorem c4_witness :
    (ensure_profile noValidate fixConfirmState).profile.city = some "Lahore"
    ∧ (ensure_profile noValidate fixConfirmState).profile.country = some "Pakistan"
    ∧ (ensure_profile noValidate fixConfirmState).profile.tz = some "Asia/Karachi"
    ∧ (ensure_profile noValidate fixConfirmState).profile.staged_loc = none
    ∧ (ensure_profile noValidate fixConfirmState).profile.confirm_loc = false
    ∧ (ensure_profile noValidate fixConfirmState).profile.awaitField = none
    ∧ (ensure_profile noValidate fixConfirmState).profile.setup_done = true := by
  exact c4_confirmation.1 noValidate fixConfirmState "Lahore" "Pakistan"
    "Asia/Karachi" rfl rfl (by decide) rfl (by decide)

/-! ## Claim C1 -/

/-- Counterexample to C1 as stated: a turn starting from a profile with
an empty required field (email) and an awaiting flag does NOT route to
the no-op sink — supplying the final missing field routes the very same
turn onward to the classifier (and hence into an intent handler). -/
theorem c1_counterexample :
    profile_complete fixAwaitEmailState.profile = false
    ∧ route_after_profile
        ((ensure_profile noValidate fixAwaitEmailState).profile) = "classify"
    ∧ ("classify" : String) ≠ "noop" := by
  exact ⟨rfl, rfl, by decide⟩

/-- C1 amended: (i) for every profile with no awaiting or confirmation
flag and a missing required field, the turn routes to the no-op sink and
the reply prompts for the first missing field in the fixed order name,
email, location; (ii) in general a turn is routed to the classifier
only when the post-onboarding profile is complete with the awaiting and
confirmation flags clear — so the only turns that reach an intent
handler from an incomplete/flagged profile are the ones that complete
onboarding in that same turn. -/
theorem c1_onboarding_gate :
    (∀ (validate : String → String → Bool × Option String) (st : BotState),
      otruthy st.profile.awaitField = false →
      st.profile.confirm_loc = false →
      profile_complete st.profile = false →
      (route_after_profile (ensure_profile validate st).profile = "noop"
        ∧ (ensure_profile validate st).reply =
            (if otruthy st.profile.name = false then msg_name
             else if otruthy st.profile.email = false then msg_email
             else msg_location)))
    ∧ (∀ (validate : String → String → Bool × Option String) (st : BotState),
      route_after_profile (ensure_profile validate st).profile = "classify" →
      (profile_complete (ensure_profile validate st).profile = true
        ∧ otruthy (ensure_profile validate st).profile.awaitField = false
        ∧ (ensure_profile validate st).profile.confirm_loc = false)) := by
  constructor
  · intro validate st hawait hcf hcomp
    have h1 := otruthy_false_beq st.profile.awaitField "name" (by decide) hawait
    have h2 := otruthy_false_beq st.profile.awaitField "email" (by decide) hawait
    have h3 := otruthy_false_beq st.profile.awaitField "location" (by decide) hawait
    cases hn : otruthy st.profile.name with
    | false =>
      have hred : ensure_profile validate st =
          { st with
            reply := msg_name,
            profile := { st.profile with awaitField := some "name" } } := by
        simp [ensure_profile, collect_step, hcomp, hcf, h1, h2, h3, hn]
      rw [hred]
      refine ⟨?_, by simp [hn]⟩
      simp [route_after_profile, (by decide : otruthy (some "name") = true)]
    | true =>
      cases he : otruthy st.profile.email with
      | false =>
        have hred : ensure_profile validate st =
            { st with
            reply := msg_email,
              profile := { st.profile with awaitField := some "email" } } := by
          simp [ensure_profile, collect_step, hcomp, hcf, h1, h2, h3, hn, he]
        rw [hred]
        refine ⟨?_, by simp [hn, he]⟩
        simp [route_after_profile, (by decide : otruthy (some "email") = true)]
      | true =>
        have hck : (otruthy st.profile.city && otruthy st.profile.country) = false := by
          have hc := hcomp
          simp only [profile_complete, hn, he, Bool.true_and] at hc
          exact hc
        have hred : ensure_profile validate st =
            { st with
            reply := msg_location,
              profile := { st.profile with awaitField := some "location" } } := by
          simp [ensure_profile, collect_step, hcomp, hcf, h1, h2, h3, hn, he, hck]
        rw [hred]
        refine ⟨?_, by simp [hn, he]⟩
        simp [route_after_profile, (by decide : otruthy (some "location") = true)]
  · intro validate st h
    unfold route_after_profile at h
    cases hcond : (otruthy (ensure_profile validate st).profile.awaitField
        || !profile_complete (ensure_profile validate st).profile
        || (ensure_profile validate st).profile.confirm_loc) with
    | true => rw [hcond] at h; simp at h
    | false =>
      simp only [Bool.or_eq_false_iff] at hcond
      obtain ⟨⟨ha, hb⟩, hc⟩ := hcond
      exact ⟨by simpa using hb, ha, hc⟩

/-- Witness for C1: a fresh empty profile routes to the no-op sink with
the name prompt. -/
theorem c1_witness :
    route_after_profile
      (ensure_profile noValidate { question := "salam" }).profile = "noop"
    ∧ (ensure_profile noValidate { question := "salam" }).reply = msg_name := by
  have h := c1_onboarding_gate.1 noValidate { question := "salam" } rfl rfl rfl
  exact ⟨h.1, by simpa using h.2⟩

/-! ## Claim C3 -/

/-- Counterexample to C3 as stated: on a date-keyword turn the classify
node pre-routes to `islamic_date` without touching the overrides, so the
city override staged by a prior turn survives into dispatch even though
the current turn's classification carries no city slot at all. -/
theorem c3_counterexample :
    (classify failLoads "" fixPrerouteState).map
        (fun s => (s.intent, s.profile.override_city))
      = some ("islamic_date", some "London") := rfl

/-- C3 amended: on the LLM classification path every transient slot
override is explicitly rewritten from the current classification (absent
or falsy slot ⇒ cleared), but the date-keyword pre-route path leaves the
whole profile untouched; the `islamic_date`, `prayer_times` and
`next_prayer` handlers clear only the two location overrides (the
requested prayer/date slots survive them), and the reminder handler
clears only the reminder slots (the location overrides survive it).
Hence an override staged in a prior turn can reach a later pre-routed
turn's handler. -/
theorem c3_override_clearing :
    (∀ (loads : String → Option JValue) (raw : String) (st : BotState),
      otruthy st.profile.awaitField = false →
      profile_complete st.profile = true →
      st.profile.onboarding_ack = false →
      st.profile.confirm_loc = false →
      date_keywords.any (fun k => strHasSub k (pyLower st.question)) = true →
      classify loads raw st = some { st with intent := "islamic_date" })
    ∧ (∀ (loads : String → Option JValue) (raw : String) (st : BotState)
        (label : String) (slots : List (String × JValue)),
      otruthy st.profile.awaitField = false →
      profile_complete st.profile = true →
      st.profile.onboarding_ack = false →
      st.profile.confirm_loc = false →
      date_keywords.any (fun k => strHasSub k (pyLower st.question)) = false →
      llm_intent_json loads raw = .ok (label, slots) →
      classify loads raw st = some { st with intent := label, profile :=
        { st.profile with
          override_city := match dictGet slots "city" with
            | some v => if jtruthy v then some (pyStr v) else none
            | none => none,
          override_country := match find_country_in_text st.question with
            | some ec => some ((normalize_country_name ec).getD ec)
            | none => none,
          requested_prayer := match dictGet slots "prayer_name" with
            | some v => if jtruthy v then some (pyStr v) else none
            | none => none,
          requested_date := match dictGet slots "date" with
            | some v => if jtruthy v then some (pyStr v) else none
            | none => none,
          reminder_text := match dictGet slots "reminder_text" with
            | some v => if jtruthy v then some (pyStr v) else none
            | none => none,
          reminder_time := match dictGet slots "reminder_time" with
            | some v => if jtruthy v then some (pyStr v) else none
            | none => none } })
    ∧ (∀ (fetch : Option String → Except Unit AladhanData)
        (tr : Except Unit String) (st st' : BotState),
      islamic_date_h fetch tr st = some st' →
      (st'.profile.override_city = none ∧ st'.profile.override_country = none
        ∧ st'.profile.requested_prayer = st.profile.requested_prayer
        ∧ st'.profile.requested_date = st.profile.requested_date))
    ∧ (∀ (fetch : Option String → Except Unit AladhanData)
        (nowAt : String → LocalDT) (tr : Except Unit String) (st st' : BotState),
      prayer_times_h fetch nowAt tr st = some st' →
      (st'.profile.override_city = none ∧ st'.profile.override_country = none
        ∧ st'.profile.requested_prayer = st.profile.requested_prayer
        ∧ st'.profile.requested_date = st.profile.requested_date))
    ∧ (∀ (fetch : Option String → Except Unit AladhanData)
        (nowAt : String → LocalDT) (tr : Except Unit String) (st st' : BotState),
      next_prayer_h fetch nowAt tr st = some st' →
      (st'.profile.override_city = none ∧ st'.profile.override_country = none
        ∧ st'.profile.requested_prayer = st.profile.requested_prayer
        ∧ st'.profile.requested_date = st.profile.requested_date))
    ∧ (∀ (ex : Except Unit JValue) (tzOk : String → Bool)
        (nowAt : String → LocalDT) (enq : Bool) (st st' : BotState),
      scheduler_agent_h ex tzOk nowAt enq st = some st' →
      (st'.profile.reminder_text = none ∧ st'.profile.reminder_time = none
        ∧ st'.profile.override_city = st.profile.override_city
        ∧ st'.profile.override_country = st.profile.override_country)) := by
  refine ⟨?_, ?_, ?_, ?_, ?_, ?_⟩
  · intro loads raw st hawait hcomp hack hcf hkw
    simp [classify, hawait, hcomp, hack, hcf, hkw]
  · intro loads raw st label slots hawait hcomp hack hcf hkw hllm
    simp [classify, hawait, hcomp, hack, hcf, hkw, hllm]
  · intro fetch tr st st' h
    unfold islamic_date_h at h
    rw [Option.map_eq_some'] at h
    obtain ⟨b, -, hf⟩ := h
    subst hf
    simp [handler_tail, clear_overrides]
  · intro fetch nowAt tr st st' h
    unfold prayer_times_h at h
    rw [Option.map_eq_some'] at h
    obtain ⟨b, -, hf⟩ := h
    subst hf
    simp [handler_tail, clear_overrides]
  · intro fetch nowAt tr st st' h
    unfold next_prayer_h at h
    rw [Option.map_eq_some'] at h
    obtain ⟨b, -, hf⟩ := h
    subst hf
    simp [handler_tail, clear_overrides]
  · intro ex tzOk nowAt enq st st' h
    unfold scheduler_agent_h at h
    rw [Option.map_eq_some'] at h
    obtain ⟨r, -, hf⟩ := h
    subst hf
    simp [reminder_pop]

/-- Witness for C3: the date handler on a state with staged overrides
clears the location overrides but leaves the requested prayer slot in
the profile. -/
theorem c3_witness :
    (islamic_date_h (fun _ => Except.ok fixToday) (Except.error ()) fixC3State).map
      (fun s => (s.profile.override_city, s.profile.override_country,
        s.profile.requested_prayer))
    = some (none, none, some "Fajr") := by
  cases hrun : islamic_date_h (fun _ => Except.ok fixToday) (Except.error ())
      fixC3State with
  | none => exact absurd hrun (by decide)
  | some st' =>
    obtain ⟨h1, h2, h3, h4⟩ := c3_override_clearing.2.2.1
      (fun _ => Except.ok fixToday) (Except.error ()) fixC3State st' hrun
    simp [h1, h2, h3, fixC3State, fixProfile]

/-! ## Claim C5 -/

/-- The selection loop returns the first canonical prayer strictly
after the current minute, provided every earlier prayer parses to a
not-later time. -/
theorem findNext_first (t : List (String × String)) (nowMin : Nat) :
    ∀ (pre post : List String) (p : String) (m : Nat),
      (∀ q ∈ pre, ∃ v mq, lookupS t q = some v
        ∧ toDtMin (clean_time v) = some mq ∧ mq ≤ nowMin) →
      (∃ v, lookupS t p = some v ∧ toDtMin (clean_time v) = some m) →
      m > nowMin →
      findNext t nowMin (pre ++ p :: post) = .ok (some (p, m)) := by
  intro pre
  induction pre with
  | nil =>
    intro post p m hpre hp hm
    obtain ⟨v, hv, hparse⟩ := hp
    simp [findNext, hv, hparse, hm]
  | cons q pre' ih =>
    intro post p m hpre hp hm
    obtain ⟨v, mq, hv, hparse, hle⟩ := hpre q (by simp)
    have hng : ¬ mq > nowMin := by omega
    simp only [List.cons_append, findNext, hv, hparse, if_neg hng]
    exact ih post p m (fun q' hq' => hpre q' (by simp [hq'])) hp hm

/-- C5: the next-prayer handler selects the first prayer in the
canonical order Fajr, Dhuhr, Asr, Maghrib, Isha whose time is strictly
after the current local time; and in the concrete scenario with the
claim's timings and local time 20:00 it reports tomorrow's Fajr at
05:00 with a 9h 0m remaining delta crossing midnight. -/
theorem c5_next_prayer :
    (∀ (t : List (String × String)) (nowMin : Nat) (pre post : List String)
        (p : String) (m : Nat),
      PRAYER_ORDER = pre ++ p :: post →
      (∀ q ∈ pre, ∃ v mq, lookupS t q = some v
        ∧ toDtMin (clean_time v) = some mq ∧ mq ≤ nowMin) →
      (∃ v, lookupS t p = some v ∧ toDtMin (clean_time v) = some m) →
      m > nowMin →
      findNext t nowMin PRAYER_ORDER = .ok (some (p, m)))
    ∧ (next_prayer_h fixFetch fixNow (Except.error ()) fixC5State).map
        (fun s => s.reply)
      = some "Next prayer in Lahore, Pakistan: Fajr at 05:00 (9h 0m left)" := by
  constructor
  · intro t nowMin pre post p m horder hpre hp hm
    rw [horder]
    exact findNext_first t nowMin pre post p m hpre hp hm
  · decide

/-- Witness for C5 at a concrete mid-day instant (11:40, i.e. minute
700): Dhuhr at 12:00 is the first prayer strictly after it. -/
theorem c5_witness :
    findNext fixToday.timings 700 PRAYER_ORDER = .ok (some ("Dhuhr", 720)) := by
  refine c5_next_prayer.1 fixToday.timings 700 ["Fajr"]
    ["Asr", "Maghrib", "Isha"] "Dhuhr" 720 rfl ?_
    ⟨"12:00", by decide, by decide⟩ (by omega)
  intro q hq
  have hq' : q = "Fajr" := by simpa using hq
  subst hq'
  exact ⟨"05:00", 300, by decide, by decide, by omega⟩

/-! ## Claim C8 -/

/-- Counterexample to C8 as stated: with a failing translator the
output-language gate returns its input unchanged, so a handler that
gated its base reply would produce the same text for an Arabic and an
English profile; the `general` handler does not — its Arabic reply is
not the gate output of its English reply under translation failure. -/
theorem c8_counterexample :
    (general_h { profile := { lang := some "ar" } }).reply
      ≠ ensure_output_language { lang := some "ar" } (Except.error ())
          ((general_h { profile := { lang := some "en" } }).reply) := by
  decide

/-- C8 amended: the gate behaves as claimed — not-Arabic or
already-Arabic text passes through unchanged, any translation failure
(exception or empty content) returns the original, and a successful
non-empty translation replaces the text; the `islamic_date`,
`prayer_times` and `next_prayer` handlers pass their base reply through
the gate, but the `general` handler (like the reminder handler) selects
a fixed language-specific reply directly, bypassing the gate. -/
theorem c8_output_language :
    (∀ (p : Profile) (tr : Except Unit String) (text : String),
      langOf p ≠ "ar" → ensure_output_language p tr text = text)
    ∧ (∀ (p : Profile) (tr : Except Unit String) (text : String),
      hasAr text = true → ensure_output_language p tr text = text)
    ∧ (∀ (p : Profile) (text : String),
      ensure_output_language p (.error ()) text = text)
    ∧ (∀ (p : Profile) (text : String),
      ensure_output_language p (.ok "") text = text)
    ∧ (∀ (p : Profile) (c text : String),
      langOf p = "ar" → hasAr text = false → text ≠ "" → pyStrip c ≠ "" →
      ensure_output_language p (.ok c) text = pyStrip c)
    ∧ (∀ (fetch : Option String → Except Unit AladhanData)
        (tr : Except Unit String) (st : BotState) (base : String),
      islamic_date_base fetch st = some base →
      (islamic_date_h fetch tr st).map (fun s => s.reply)
        = some (ensure_output_language st.profile tr base))
    ∧ (∀ (fetch : Option String → Except Unit AladhanData)
        (nowAt : String → LocalDT) (tr : Except Unit String) (st : BotState)
        (base : String),
      prayer_times_base fetch nowAt st = some base →
      (prayer_times_h fetch nowAt tr st).map (fun s => s.reply)
        = some (ensure_output_language st.profile tr base))
    ∧ (∀ (fetch : Option String → Except Unit AladhanData)
        (nowAt : String → LocalDT) (tr : Except Unit String) (st : BotState)
        (base : String),
      next_prayer_base fetch nowAt st = some base →
      (next_prayer_h fetch nowAt tr st).map (fun s => s.reply)
        = some (ensure_output_language st.profile tr base))
    ∧ (∀ st : BotState, (general_h st).reply
        = if langOf st.profile == "ar" then general_ar else general_en)
    ∧ general_ar ≠ general_en := by
  refine ⟨?_, ?_, gate_error_id, gate_ok_empty_id, ?_, ?_, ?_, ?_,
    fun st => rfl, by decide⟩
  · intro p tr text h
    have hb : (langOf p != "ar") = true := by simpa using h
    simp [ensure_output_language, hb]
  · intro p tr text h
    by_cases hl : (langOf p != "ar") = true
    · simp [ensure_output_language, hl]
    · have hne : text.isEmpty = false := by
        cases he : text.isEmpty with
        | true =>
          rw [(String.isEmpty_iff text).mp he] at h
          exact absurd h (by decide)
        | false => rfl
      simp [ensure_output_language, hl, hne, h]
  · intro p c text h1 h2 h3 h4
    have hb : (langOf p != "ar") = false := by simp [h1]
    have hne : text.isEmpty = false := by
      cases he : text.isEmpty with
      | true => exact absurd ((String.isEmpty_iff text).mp he) h3
      | false => rfl
    have hsc : (pyStrip c).isEmpty = false := by
      cases he : (pyStrip c).isEmpty with
      | true => exact absurd ((String.isEmpty_iff _).mp he) h4
      | false => rfl
    simp [ensure_output_language, hb, hne, h2, hsc]
  · intro fetch tr st base hbase
    unfold islamic_date_h
    rw [hbase]
    simp [handler_tail, clear_overrides]
  · intro fetch nowAt tr st base hbase
    unfold prayer_times_h
    rw [hbase]
    simp [handler_tail, clear_overrides]
  · intro fetch nowAt tr st base hbase
    unfold next_prayer_h
    rw [hbase]
    simp [handler_tail, clear_overrides]

/-- Witness for C8: a non-Arabic profile passes text through the gate
unchanged. -/
theorem c8_witness :
    ensure_output_language fixProfile (Except.error ()) "Hello" = "Hello" := by
  exact c8_output_language.1 fixProfile (Except.error ()) "Hello" (by decide)

/-! ## Claim C9 -/

/-- Pointwise-equal predicates give equal `any`. -/
theorem any_eq_of_fun_eq {α : Type} (l : List α) (f g : α → Bool)
    (h : ∀ x, f x = g x) : l.any f = l.any g := by
  induction l with
  | nil => rfl
  | cons x t ih => simp [List.any_cons, h x, ih]

/-- On the LLM classification path the country override is rewritten
from `find_country_in_text` on the utterance alone. -/
theorem classify_country_llm (loads : String → Option JValue) (raw : String)
    (st : BotState) (label : String) (slots : List (String × JValue))
    (hawait : otruthy st.profile.awaitField = false)
    (hcomp : profile_complete st.profile = true)
    (hack : st.profile.onboarding_ack = false)
    (hcf : st.profile.confirm_loc = false)
    (hkw : date_keywords.any (fun k => strHasSub k (pyLower st.question)) = false)
    (hllm : llm_intent_json loads raw = .ok (label, slots)) :
    (classify loads raw st).map (fun s => s.profile.override_country)
      = some (match find_country_in_text st.question with
          | some ec => some ((normalize_country_name ec).getD ec)
          | none => none) := by
  simp [classify, hawait, hcomp, hack, hcf, hkw, hllm]

/-- Counterexample to C9 as stated: on a date-keyword turn no
classification runs and a country override staged by a prior turn
remains set even though the current utterance contains no country
match at all. -/
theorem c9_counterexample :
    (classify failLoads "" fixC9State).map (fun s => s.profile.override_country)
      = some (some "France")
    ∧ find_country_in_text "what is the date today" = none := ⟨rfl, rfl⟩

/-- C9 amended: on the LLM classification path the country override is
a function of the utterance text only — it is set exactly from
`find_country_in_text`, which succeeds iff the lowercased utterance
contains a word-boundary match of a known alias, a country name or a
common name — and two runs differing only in the classifier's output
produce identical overrides; but the date-keyword pre-route path skips
classification and leaves a previously staged override in place. -/
theorem c9_country_override :
    (∀ (loads : String → Option JValue) (raw : String) (st : BotState)
        (label : String) (slots : List (String × JValue)),
      otruthy st.profile.awaitField = false →
      profile_complete st.profile = true →
      st.profile.onboarding_ack = false →
      st.profile.confirm_loc = false →
      date_keywords.any (fun k => strHasSub k (pyLower st.question)) = false →
      llm_intent_json loads raw = .ok (label, slots) →
      (classify loads raw st).map (fun s => s.profile.override_country)
        = some (match find_country_in_text st.question with
            | some ec => some ((normalize_country_name ec).getD ec)
            | none => none))
    ∧ (∀ (loads₁ : String → Option JValue) (raw₁ : String)
        (loads₂ : String → Option JValue) (raw₂ : String) (st : BotState)
        (label₁ : String) (slots₁ : List (String × JValue))
        (label₂ : String) (slots₂ : List (String × JValue)),
      otruthy st.profile.awaitField = false →
      profile_complete st.profile = true →
      st.profile.onboarding_ack = false →
      st.profile.confirm_loc = false →
      date_keywords.any (fun k => strHasSub k (pyLower st.question)) = false →
      llm_intent_json loads₁ raw₁ = .ok (label₁, slots₁) →
      llm_intent_json loads₂ raw₂ = .ok (label₂, slots₂) →
      (classify loads₁ raw₁ st).map (fun s => s.profile.override_country)
        = (classify loads₂ raw₂ st).map (fun s => s.profile.override_country))
    ∧ (∀ (loads : String → Option JValue) (raw : String) (st : BotState),
      otruthy st.profile.awaitField = false →
      profile_complete st.profile = true →
      st.profile.onboarding_ack = false →
      st.profile.confirm_loc = false →
      date_keywords.any (fun k => strHasSub k (pyLower st.question)) = true →
      (classify loads raw st).map (fun s => s.profile.override_country)
        = some st.profile.override_country)
    ∧ (∀ q : String, q ≠ "" →
      ((find_country_in_text q).isSome = true ↔
        (fcit_aliases.any (fun av => reWordSearch av.1 (pyLower q))
          || pycountries.any (fun c =>
            reWordSearch (pyLower c.cname) (pyLower q)
              || (match c.commonName with
                  | some cn => reWordSearch (pyLower cn) (pyLower q)
                  | none => false))) = true)) := by
  refine ⟨classify_country_llm, ?_, ?_, ?_⟩
  · intro loads₁ raw₁ loads₂ raw₂ st label₁ slots₁ label₂ slots₂
      hawait hcomp hack hcf hkw h1 h2
    rw [classify_country_llm loads₁ raw₁ st label₁ slots₁ hawait hcomp hack hcf hkw h1,
      classify_country_llm loads₂ raw₂ st label₂ slots₂ hawait hcomp hack hcf hkw h2]
  · intro loads raw st hawait hcomp hack hcf hkw
    simp [classify, hawait, hcomp, hack, hcf, hkw]
  · intro q hq
    have hqe : q.isEmpty = false := by
      cases he : q.isEmpty with
      | true => exact absurd ((String.isEmpty_iff q).mp he) hq
      | false => rfl
    have hpt1 : ∀ av : String × String,
        (if reWordSearch av.1 (pyLower q) then some av.2 else none).isSome
          = reWordSearch av.1 (pyLower q) := by
      intro av
      cases hw : reWordSearch av.1 (pyLower q) <;> simp [hw]
    have hpt2 : ∀ c : PyCountry,
        ((if reWordSearch (pyLower c.cname) (pyLower q) then some c.cname
          else match c.commonName with
            | some cn => if reWordSearch (pyLower cn) (pyLower q) then some cn
              else none
            | none => none).isSome)
          = (reWordSearch (pyLower c.cname) (pyLower q)
              || (match c.commonName with
                  | some cn => reWordSearch (pyLower cn) (pyLower q)
                  | none => false)) := by
      intro c
      cases hw : reWordSearch (pyLower c.cname) (pyLower q) with
      | true => simp [hw]
      | false =>
        cases hcn : c.commonName with
        | none => simp [hw, hcn]
        | some cn =>
          cases hw2 : reWordSearch (pyLower cn) (pyLower q) <;> simp [hw, hcn, hw2]
    unfold find_country_in_text
    simp only [hqe, Bool.false_eq_true, if_false]
    cases h1 : fcit_aliases.findSome?
        (fun av => if reWordSearch av.1 (pyLower q) then some av.2 else none) with
    | some v =>
      have hany : fcit_aliases.any (fun av => reWordSearch av.1 (pyLower q)) = true := by
        rw [← any_eq_of_fun_eq fcit_aliases _ _ hpt1, ← findSome?_isSome, h1]
        rfl
      simp [hany]
    | none =>
      have hanyf : fcit_aliases.any (fun av => reWordSearch av.1 (pyLower q)) = false := by
        rw [← any_eq_of_fun_eq fcit_aliases _ _ hpt1, ← findSome?_isSome, h1]
        rfl
      rw [findSome?_isSome, any_eq_of_fun_eq pycountries _ _ hpt2]
      simp [hanyf]

/-- Witness for C9: with the classifier returning a France country slot
on the utterance "prayer times in lahore pakistan", the override comes
from the text and is Pakistan, not France. -/
theorem c9_witness :
    (classify franceLoads "K"
      { question := "prayer times in lahore pakistan", profile := fixProfile }).map
        (fun s => s.profile.override_country)
    = some (some "Pakistan") := by
  rw [c9_country_override.1 franceLoads "K"
    { question := "prayer times in lahore pakistan", profile := fixProfile }
    "prayer_times" [("country", JValue.jstr "France")]
    rfl rfl rfl rfl (by decide) rfl]
  decide

/-! ## Claim C10 -/

/-- An early return of the field-collection step never touches the
language field. -/
theorem collect_step_lang_error (validate : String → String → Bool × Option String)
    (q : String) (p : Profile) (r : String) (p' : Profile)
    (h : collect_step validate q p = .error (r, p')) : p'.lang = p.lang := by
  unfold collect_step at h
  repeat' (first | split at h | simp only [] at h)
  all_goals first
    | exact Except.noConfusion h
    | (injection h with h2; injection h2 with h3 h4; subst h4; rfl)

/-- A fall-through of the field-collection step never touches the
language field. -/
theorem collect_step_lang_ok (validate : String → String → Bool × Option String)
    (q : String) (p : Profile) (p' : Profile)
    (h : collect_step validate q p = .ok p') : p'.lang = p.lang := by
  unfold collect_step at h
  repeat' (first | split at h | simp only [] at h)
  all_goals first
    | exact Except.noConfusion h
    | (injection h with h2; subst h2; rfl)

/-- The onboarding node never touches the language field. -/
theorem ensure_profile_lang (validate : String → String → Bool × Option String)
    (st : BotState) :
    (ensure_profile validate st).profile.lang = st.profile.lang := by
  unfold ensure_profile
  simp only []
  split
  · rfl
  · split
    · repeat' (first | split | simp only [])
    · cases hcs : collect_step validate (pyStrip st.question) st.profile with
      | error e =>
        obtain ⟨r, p'⟩ := e
        simp only [hcs]
        exact collect_step_lang_error validate (pyStrip st.question) st.profile r p' hcs
      | ok p' =>
        simp only [hcs]
        have hl := collect_step_lang_ok validate (pyStrip st.question) st.profile p' hcs
        repeat' split
        all_goals exact hl

/-- The classify node never touches the language field. -/
theorem classify_lang (loads : String → Option JValue) (raw : String)
    (st st' : BotState) (h : classify loads raw st = some st') :
    st'.profile.lang = st.profile.lang := by
  unfold classify at h
  by_cases h1 : (otruthy st.profile.awaitField || !profile_complete st.profile
      || st.profile.onboarding_ack || st.profile.confirm_loc) = true
  · rw [if_pos h1] at h
    injection h with h2
    subst h2
    rfl
  · rw [if_neg h1] at h
    by_cases hk : (date_keywords.any fun k => strHasSub k (pyLower st.question)) = true
    · rw [if_pos hk] at h
      injection h with h2
      subst h2
      rfl
    · rw [if_neg hk] at h
      cases hll : llm_intent_json loads raw with
      | error e => rw [hll] at h; exact Option.noConfusion h
      | ok p =>
        obtain ⟨label, slots⟩ := p
        rw [hll] at h
        simp only [] at h
        injection h with h2
        subst h2
        rfl

/-- C10: `handle_turn` unconditionally overwrites the profile language
from the current utterance before the graph runs — `ar` exactly when
the question contains an Arabic-script character, `en` otherwise —
regardless of any language value the caller stored; and no graph node
embedded here ever modifies the language field, so the detected value
survives the whole turn. -/
theorem c10_auto_language :
    (∀ (q : String) (p : Profile) (w : Option String),
      (handle_turn_state q p w).profile.lang
        = some (if hasAr q then "ar" else "en"))
    ∧ (∀ (p : Profile) (q : String),
      (auto_set_lang p q).lang = some (if hasAr q then "ar" else "en"))
    ∧ (∀ (validate : String → String → Bool × Option String) (st : BotState),
      (ensure_profile validate st).profile.lang = st.profile.lang)
    ∧ (∀ (loads : String → Option JValue) (raw : String) (st st' : BotState),
      classify loads raw st = some st' → st'.profile.lang = st.profile.lang)
    ∧ (∀ st : BotState, (noop_h st).profile.lang = st.profile.lang)
    ∧ (∀ st : BotState, (general_h st).profile.lang = st.profile.lang)
    ∧ (∀ (fetch : Option String → Except Unit AladhanData)
        (tr : Except Unit String) (st st' : BotState),
      islamic_date_h fetch tr st = some st' → st'.profile.lang = st.profile.lang)
    ∧ (∀ (fetch : Option String → Except Unit AladhanData)
        (nowAt : String → LocalDT) (tr : Except Unit String) (st st' : BotState),
      prayer_times_h fetch nowAt tr st = some st' →
        st'.profile.lang = st.profile.lang)
    ∧ (∀ (fetch : Option String → Except Unit AladhanData)
        (nowAt : String → LocalDT) (tr : Except Unit String) (st st' : BotState),
      next_prayer_h fetch nowAt tr st = some st' →
        st'.profile.lang = st.profile.lang)
    ∧ (∀ (ex : Except Unit JValue) (tzOk : String → Bool)
        (nowAt : String → LocalDT) (enq : Bool) (st st' : BotState),
      scheduler_agent_h ex tzOk nowAt enq st = some st' →
        st'.profile.lang = st.profile.lang) := by
  refine ⟨fun q p w => rfl, fun p q => rfl, ensure_profile_lang, classify_lang,
    ?_, fun st => rfl, ?_, ?_, ?_, ?_⟩
  · intro st
    unfold noop_h
    repeat' (first | split | simp only [])
  · intro fetch tr st st' h
    unfold islamic_date_h at h
    rw [Option.map_eq_some'] at h
    obtain ⟨b, -, hf⟩ := h
    subst hf
    rfl
  · intro fetch nowAt tr st st' h
    unfold prayer_times_h at h
    rw [Option.map_eq_some'] at h
    obtain ⟨b, -, hf⟩ := h
    subst hf
    rfl
  · intro fetch nowAt tr st st' h
    unfold next_prayer_h at h
    rw [Option.map_eq_some'] at h
    obtain ⟨b, -, hf⟩ := h
    subst hf
    rfl
  · intro ex tzOk nowAt enq st st' h
    unfold scheduler_agent_h at h
    rw [Option.map_eq_some'] at h
    obtain ⟨r, -, hf⟩ := h
    subst hf
    rfl

/-- Witness for C10: a Spanish-stored profile hit by an Arabic question
enters the graph with language `ar`, and the classify node preserves
it. -/
theorem c10_witness :
    (handle_turn_state "السلام" { lang := some "es" } none).profile.lang = some "ar"
    ∧ ((classify failLoads "" fixPrerouteState).map (fun s => s.profile.lang)
        = some fixPrerouteState.profile.lang) := by
  constructor
  · have h := c10_auto_language.1 "السلام" { lang := some "es" } none
    simpa using h
  · cases hrun : classify failLoads "" fixPrerouteState with
    | none => exact absurd hrun (by decide)
    | some st' =>
      have h := c10_auto_language.2.2.2.1 failLoads "" fixPrerouteState st' hrun
      simp [h]

end NamazBot
